import Mathlib

/-!
# Verification of the `astro_calc` positional-astronomy library

This file is a shallow embedding, in Lean 4, of the parts of the
`astro_calc` Rust library (angles, astronomical time, precession and
coordinate transformations) that the specification claims talk about,
together with proofs or refutations of those claims.

Embedding conventions:

* `f64` values are embedded as exact rationals (`ℚ`) wherever the code
  only performs field operations, `floor`, `ceil` and comparisons, so
  that every definition is executable and claims can be decided on
  concrete inputs.  Floating-point rounding itself is not modelled.
* Where the code evaluates transcendental functions (`sin`, `cos`,
  `atan2`, `asin`) the embedding works over `ℝ`; those definitions are
  necessarily noncomputable.
* `i32` values are embedded as `ℤ`; where the code performs `i32`
  arithmetic that can overflow on in-scope inputs (the year arithmetic
  of the calendar builder, the `abs`/negation of the minutes component
  of the sexagesimal constructors), the release-build two's-complement
  wrap-around is modelled explicitly (`wrap_i32`, `i32_abs`, `i32_neg`;
  debug builds panic instead, which is noted where it applies).
* Rust `Result` becomes `Except`, a Rust `panic!`/out-of-bounds index
  becomes `Option.none` at the outermost level of the function that can
  reach it.
* Special `f64` values (NaN, ±∞) only matter for the constructor claims;
  for those a dedicated type `F64` with explicit `nan` / `inf` / `neginf`
  constructors is used, mirroring how the constructors merely store the
  payload.
-/

namespace AstroCalc

/-- Decidable equality of `Except` results, needed to decide concrete
claims about fallible operations. -/
instance {ε α : Type} [DecidableEq ε] [DecidableEq α] :
    DecidableEq (Except ε α) := fun x y =>
  match x, y with
  | .ok a, .ok b =>
    if h : a = b then .isTrue (by rw [h]) else .isFalse (by simp [h])
  | .error a, .error b =>
    if h : a = b then .isTrue (by rw [h]) else .isFalse (by simp [h])
  | .ok _, .error _ => .isFalse (by simp)
  | .error _, .ok _ => .isFalse (by simp)

/-! ## Error type (src/error.rs)

`angles.rs` uses a variant spelled `AstroAlgorithmsError::Range` (the
repository snapshot is mid-refactor: `error.rs` spells the date-range
variant `RangeError`); both are included so each module can be embedded
verbatim. -/

/-- Date-range errors from `src/error.rs`. -/
inductive DateRangeError
  | DateUnderflow (src threshold : ℚ)
  | DateOverflow (src threshold : ℚ)
  deriving Repr, DecidableEq

/-- Library-wide error enumeration from `src/error.rs` (plus the `Range`
variant used by `src/angles.rs`). -/
inductive AstroAlgorithmsError
  | RangeError (e : DateRangeError)
  | InvalidGregorianDate (year month day : ℤ)
  | InvalidJulianDate (year month day : ℤ)
  | InvalidTime (hour minute second : ℤ)
  | EncounteredNaN
  | EncounteredInf
  | EncounteredInappropriateNegativeValue
  | Range
  | UnspecifiedError
  deriving Repr, DecidableEq

/-- `AstroResult<T>` from `src/error.rs`. -/
abbrev AstroResult (α : Type) := Except AstroAlgorithmsError α

/-! ## Angles over exact rationals (src/angles.rs)

`map_to_branch` and the `DegreeAngle` range mappers only use field
operations, `floor`, `ceil` and comparisons, so they are embedded over
`ℚ` exactly. -/

/-- `map_to_branch` from `src/angles.rs` (lines 1064–1076): reduce `val`
into the branch `[mn, mx]` by shifting whole multiples of the range.
`f64::floor`/`f64::ceil` are embedded as `Int.floor`/`Int.ceil` cast
back to the scalar field. -/
def map_to_branch (val mn mx : ℚ) : ℚ :=
  let range := mx - mn
  if val < mn then
    let factor : ℤ := ⌊(val - mn) / range⌋
    val - factor * range
  else if val > mx then
    let factor : ℤ := ⌈(val - mx) / range⌉
    val - factor * range
  else
    val

/-- `DegreeAngle::map_to_time_range` (src/angles.rs lines 108–110):
`map_to_branch(degrees, 0.0, 360.0)`. The `DegreeAngle` payload is its
single `f64` field, embedded as `ℚ`. -/
def DegreeAngle.map_to_time_range (degrees : ℚ) : ℚ :=
  map_to_branch degrees 0 360

/-- `DegreeAngle::map_to_latitude_range` (src/angles.rs lines 112–119).
Note the lower bound really is `-90.02` in the source. -/
def DegreeAngle.map_to_latitude_range (degrees : ℚ) : AstroResult ℚ :=
  let val := map_to_branch degrees (-180) 180
  if val < -90.02 ∨ val > 90.0 then
    .error .Range
  else
    .ok val

/-- `DegreeAngle::map_to_longitude_range` (src/angles.rs lines 121–123):
`map_to_branch(degrees, -180.0, 180.0)`. -/
def DegreeAngle.map_to_longitude_range (degrees : ℚ) : ℚ :=
  map_to_branch degrees (-180) 180

/-! ## `f64` payloads with special values, for the constructor claims -/

/-- An `f64` payload: either a finite value (embedded exactly as a
rational) or one of the special values NaN, `+∞`, `-∞`. -/
inductive F64
  | finite (q : ℚ)
  | nan
  | inf
  | neginf
  deriving Repr, DecidableEq

/-- `f64::is_nan`. -/
def F64.is_nan : F64 → Bool
  | .nan => true
  | _ => false

/-- `f64::is_infinite`. -/
def F64.is_infinite : F64 → Bool
  | .inf => true
  | .neginf => true
  | _ => false

/-- `f64::abs` (`NaN.abs()` is NaN). -/
def F64.abs : F64 → F64
  | .finite q => .finite |q|
  | .nan => .nan
  | .inf => .inf
  | .neginf => .inf

/-- Negation of an `f64` payload (`-NaN` is NaN). -/
def F64.neg : F64 → F64
  | .finite q => .finite (-q)
  | .nan => .nan
  | .inf => .neginf
  | .neginf => .inf

/-- `RadianAngle` (src/angles.rs lines 22–25): a single `f64` field. -/
structure RadianAngleF where
  radians : F64
  deriving Repr, DecidableEq

/-- `RadianAngle::new` (src/angles.rs lines 188–190): stores the payload
unconditionally; there is no validation and no error path. -/
def RadianAngleF.new (radians : F64) : RadianAngleF :=
  { radians := radians }

/-- `RadianAngle::is_nan` (src/angles.rs lines 74–76). -/
def RadianAngleF.is_nan (a : RadianAngleF) : Bool :=
  a.radians.is_nan

/-- Two's-complement wrap-around of `i32` arithmetic in release builds
(2^31 = 2147483648, 2^32 = 4294967296): the reduction applied to an
out-of-range intermediate result.  Debug builds panic on overflow
instead; the embedding models the release behaviour and the panic is
noted where it can occur. -/
def wrap_i32 (a : ℤ) : ℤ := (a + 2147483648) % 4294967296 - 2147483648

/-- `i32::abs` with release-build semantics: exact absolute value except
at `i32::MIN = -2147483648`, which wraps to itself (debug builds panic
there). -/
def i32_abs (a : ℤ) : ℤ := if a = -2147483648 then a else |a|

/-- `i32` negation with release-build semantics: exact except at
`i32::MIN`, which wraps to itself (debug builds panic there). -/
def i32_neg (a : ℤ) : ℤ := if a = -2147483648 then a else -a

/-- `DMSAngle` (src/angles.rs lines 35–39): `i32` degrees and minutes,
`f64` seconds. -/
structure DMSAngleF where
  degrees : ℤ
  minutes : ℤ
  seconds : F64
  deriving Repr, DecidableEq

/-- `DMSAngle::new` (src/angles.rs lines 247–265): propagates the sign of
the most significant non-zero component; total, no error path.  The
`minutes` component goes through `i32` `abs`/negation, which wrap at
`i32::MIN` in release builds (panic in debug). -/
def DMSAngleF.new (degrees minutes : ℤ) (seconds : F64) : DMSAngleF :=
  if degrees < 0 then
    { degrees := degrees, minutes := i32_neg (i32_abs minutes),
      seconds := seconds.abs.neg }
  else if degrees > 0 then
    { degrees := degrees, minutes := i32_abs minutes, seconds := seconds.abs }
  else if minutes < 0 then
    { degrees := degrees, minutes := minutes, seconds := seconds.abs.neg }
  else if minutes > 0 then
    { degrees := degrees, minutes := minutes, seconds := seconds.abs }
  else
    { degrees := degrees, minutes := minutes, seconds := seconds }

/-- `HMSAngle` (src/angles.rs lines 45–49): `i32` hours and minutes,
`f64` seconds. -/
structure HMSAngleF where
  hours : ℤ
  minutes : ℤ
  seconds : F64
  deriving Repr, DecidableEq

/-- `HMSAngle::new` (src/angles.rs lines 270–287): same normalization
as `DMSAngle::new` with hours in place of degrees; total, no error
path; the same `i32` wrap of the minutes component at `i32::MIN`. -/
def HMSAngleF.new (hours minutes : ℤ) (seconds : F64) : HMSAngleF :=
  if hours < 0 then
    { hours := hours, minutes := i32_neg (i32_abs minutes),
      seconds := seconds.abs.neg }
  else if hours > 0 then
    { hours := hours, minutes := i32_abs minutes, seconds := seconds.abs }
  else if minutes < 0 then
    { hours := hours, minutes := minutes, seconds := seconds.abs.neg }
  else if minutes > 0 then
    { hours := hours, minutes := minutes, seconds := seconds.abs }
  else
    { hours := hours, minutes := minutes, seconds := seconds }

/-- The sign invariant stated in the spec for a degrees/minutes/seconds
(or hours/minutes/seconds) triple with a rational seconds component:
every non-zero component has the sign of the most significant non-zero
component. -/
def signInvariant (d m : ℤ) (s : ℚ) : Prop :=
  if 0 < d then 0 ≤ m ∧ 0 ≤ s
  else if d < 0 then m ≤ 0 ∧ s ≤ 0
  else if 0 < m then 0 ≤ s
  else if m < 0 then s ≤ 0
  else True

/-- Sign surrogate of an `f64` payload for sign-invariant statements:
finite values stand for themselves, the infinities for `±1`, and NaN
(which has no sign) for `0`, making sign conditions on it vacuous. -/
def F64.sgnQ : F64 → ℚ
  | .finite q => q
  | .nan => 0
  | .inf => 1
  | .neginf => -1

/-- The sign invariant lifted to a `DMSAngle` value. -/
def signInvariantDMS (x : DMSAngleF) : Prop :=
  signInvariant x.degrees x.minutes x.seconds.sgnQ

/-- The sign invariant lifted to an `HMSAngle` value. -/
def signInvariantHMS (x : HMSAngleF) : Prop :=
  signInvariant x.hours x.minutes x.seconds.sgnQ

/-! ## Astronomical time (src/astro_time/mod.rs), over exact rationals -/

/-- `TimeType` from src/astro_time/mod.rs (lines 23–28). -/
inductive TimeType
  | UT
  | DT
  deriving Repr, DecidableEq

/-- `AstroTime` (src/astro_time/mod.rs lines 414–417): a Julian Day
number (`f64`, embedded as `ℚ`) plus a time-type tag. -/
structure AstroTime where
  julian_day : ℚ
  time_type : TimeType
  deriving Repr, DecidableEq

/-- `AstroTime::julian_day_number`. -/
def AstroTime.julian_day_number (t : AstroTime) : ℚ := t.julian_day

/-- `is_gregorian_leap_year` (src/astro_time/mod.rs lines 695–700).
Rust `%` agrees with `Int.emod` on the `== 0` / `!= 0` tests used
here. -/
def is_gregorian_leap_year (year : ℤ) : Bool :=
  if year % 4 ≠ 0 then false
  else if year % 100 ≠ 0 then true
  else if year % 400 = 0 then true
  else false

/-- `days_per_month_gregorian` (src/astro_time/mod.rs lines 738–750).
The Rust function panics on `month ∉ [1,12]`; its callers only reach it
with a validated month, so the unreachable arm is given the junk value
`0` (which also makes every day count invalid, as in a panic the caller
never observes a value at all). -/
def days_per_month_gregorian (month year : ℤ) : ℤ :=
  if month = 1 ∨ month = 3 ∨ month = 5 ∨ month = 7 ∨ month = 8 ∨
      month = 10 ∨ month = 12 then 31
  else if month = 4 ∨ month = 6 ∨ month = 9 ∨ month = 11 then 30
  else if month = 2 then
    if is_gregorian_leap_year year then 29 else 28
  else 0

/-- `is_valid_gregorian` (src/astro_time/mod.rs lines 709–712). -/
def is_valid_gregorian (year month day : ℤ) : Bool :=
  if month < 1 ∨ month > 12 ∨ day < 1 ∨ day > days_per_month_gregorian month year
  then false else true

/-- `is_valid_time` (src/astro_time/mod.rs lines 721–735): the Rust
`0...23` / `0...59` inclusive range patterns. -/
def is_valid_time (hour minute second : ℤ) : Bool :=
  if hour < 0 ∨ 23 < hour then false
  else if minute < 0 ∨ 59 < minute then false
  else if second < 0 ∨ 59 < second then false
  else true

/-- `day_fraction` (src/astro_time/mod.rs lines 768–776). -/
def day_fraction (hour minute second : ℤ) : ℚ :=
  ((hour : ℚ) + ((minute : ℚ) + (second : ℚ) / 60) / 60) / 24

/-- `to_hms` (src/astro_time/mod.rs lines 779–792): recover
hour/minute/second from the fraction of a day.  Note seconds are
obtained by `floor(x·86400 + 0.5)` with no carry into minutes. -/
def to_hms (df : ℚ) : ℤ × ℤ × ℤ :=
  let remainder₀ := df - ⌊df⌋
  let hour : ℤ := ⌊remainder₀ * 24⌋
  let remainder₁ := remainder₀ - (hour : ℚ) / 24
  let minute : ℤ := ⌊remainder₁ * 1440⌋
  let remainder₂ := remainder₁ - (minute : ℚ) / 1440
  let second : ℤ := ⌊remainder₂ * 86400 + 0.5⌋
  (hour, minute, second)

/-- The Julian Day number computed by `Builder::from_gregorian_utc`
(src/astro_time/mod.rs lines 53–82) on the valid-input path, as an exact
rational.  `year -= 1` and `(year + 4716)` are `i32` operations and wrap
in release builds (`wrap_i32`; debug builds panic), so for years above
2147478931, and for `i32::MIN` with `month < 3`, the computed value
differs from the mathematical Meeus formula.  The month arithmetic
cannot wrap for the validated months this path receives. -/
def gregorian_jd (year month day hour minute second : ℤ) : ℚ :=
  let decimal_day : ℚ := (day : ℚ) + day_fraction hour minute second
  let year' := if month < 3 then wrap_i32 (year - 1) else year
  let month' := if month < 3 then month + 12 else month
  let A : ℤ := ⌊(year' : ℚ) / 100⌋
  let B : ℚ := 2 - (A : ℚ) + ((⌊(A : ℚ) / 4⌋ : ℤ) : ℚ)
  ((⌊(365.25 : ℚ) * ((wrap_i32 (year' + 4716) : ℤ) : ℚ)⌋ : ℤ) : ℚ) +
    ((⌊(30.6001 : ℚ) * ((month' : ℚ) + 1)⌋ : ℤ) : ℚ) +
    decimal_day + B - 1524.5

/-- The Meeus chapter-7 Julian Day formula over unbounded integers — the
value the spec's words describe, with no `i32` wrap-around.  It agrees
with `gregorian_jd` exactly when the year arithmetic stays inside the
`i32` range, and is used to state where the two diverge. -/
def gregorian_jd_exact (year month day hour minute second : ℤ) : ℚ :=
  let decimal_day : ℚ := (day : ℚ) + day_fraction hour minute second
  let year' := if month < 3 then year - 1 else year
  let month' := if month < 3 then month + 12 else month
  let A : ℤ := ⌊(year' : ℚ) / 100⌋
  let B : ℚ := 2 - (A : ℚ) + ((⌊(A : ℚ) / 4⌋ : ℤ) : ℚ)
  ((⌊(365.25 : ℚ) * ((year' : ℚ) + 4716)⌋ : ℤ) : ℚ) +
    ((⌊(30.6001 : ℚ) * ((month' : ℚ) + 1)⌋ : ℤ) : ℚ) +
    decimal_day + B - 1524.5

/-- `Builder::from_julian_date(raw).build()` (src/astro_time/mod.rs
lines 40–48 and 145–147): the builder holds an `AstroResult` from the
start, so the builder pipeline is embedded directly as the final
result. -/
def from_julian_date (raw : ℚ) : AstroResult AstroTime :=
  if raw ≥ 0 then
    .ok { julian_day := raw, time_type := .UT }
  else
    .error (.RangeError (.DateUnderflow raw 0))

/-- `Builder::from_julian_date(raw).dynamical_time().build()`
(src/astro_time/mod.rs lines 134–142): retags an `Ok` target as
Dynamical Time, does nothing on an error. -/
def from_julian_date_dt (raw : ℚ) : AstroResult AstroTime :=
  match from_julian_date raw with
  | .ok t => .ok { t with time_type := .DT }
  | .error e => .error e

/-- `Builder::from_gregorian_utc(...).build()` (src/astro_time/mod.rs
lines 53–90): validate the calendar date and the time of day, compute
the Julian Day by the Meeus chapter-7 formula, and fail with a
descriptive error. -/
def from_gregorian_utc (year month day hour minute second : ℤ) :
    AstroResult AstroTime :=
  if is_valid_gregorian year month day ∧ is_valid_time hour minute second then
    let jd := gregorian_jd year month day hour minute second
    if jd ≥ 0 then
      .ok { julian_day := jd, time_type := .UT }
    else
      .error (.RangeError (.DateUnderflow jd 0))
  else if ¬ is_valid_gregorian year month day then
    .error (.InvalidGregorianDate year month day)
  else
    .error (.InvalidTime hour minute second)

/-- `AstroTime::to_gregorian_utc` (src/astro_time/mod.rs lines 465–491),
as a function of the Julian Day number. -/
def to_gregorian_utc (jd : ℚ) : ℤ × ℤ × ℤ × ℤ × ℤ × ℤ :=
  let z : ℤ := ⌊jd + 0.5⌋
  let f : ℚ := jd + 0.5 - z
  let alpha : ℤ := ⌊((z : ℚ) - 1867216.25) / 36524.25⌋
  let a : ℚ := (z : ℚ) + 1 + (alpha : ℚ) - ((⌊(alpha : ℚ) / 4⌋ : ℤ) : ℚ)
  let b : ℚ := a + 1524
  let c : ℤ := ⌊(b - 122.1) / 365.25⌋
  let d : ℤ := ⌊(365.25 : ℚ) * (c : ℚ)⌋
  let e : ℤ := ⌊(b - (d : ℚ)) / 30.6001⌋
  let day : ℤ := ⌊b - (d : ℚ) - ((⌊(30.6001 : ℚ) * (e : ℚ)⌋ : ℤ) : ℚ)⌋
  let month : ℤ := if (e : ℚ) > 13 then e - 13 else e - 1
  let year : ℤ := if month > 2 then c - 4716 else c - 4715
  let hms := to_hms f
  (year, month, day, hms.1, hms.2.1, hms.2.2)

/-- The behaviour of `Builder::from_gregorian_utc(...).build()` as the
spec describes it, written independently of the code's check order: an
invalid calendar date gives `InvalidGregorianDate`, an invalid
time-of-day gives `InvalidTime`, a negative resulting Julian Day gives
a `DateUnderflow` range error, and otherwise the Julian Day is returned
as a UT `AstroTime`. -/
def from_gregorian_utc_spec (year month day hour minute second : ℤ) :
    AstroResult AstroTime :=
  if ¬ is_valid_gregorian year month day then
    .error (.InvalidGregorianDate year month day)
  else if ¬ is_valid_time hour minute second then
    .error (.InvalidTime hour minute second)
  else if gregorian_jd year month day hour minute second < 0 then
    .error (.RangeError
      (.DateUnderflow (gregorian_jd year month day hour minute second) 0))
  else
    .ok { julian_day := gregorian_jd year month day hour minute second,
          time_type := .UT }


/-! ## Delta-T table and UT/DT conversion (src/astro_time/time_data.rs, mod.rs)

The `f64` table entries and all arithmetic are embedded exactly over `ℚ`. -/

set_option maxHeartbeats 3200000 in
/-- The date / delta-t list `time_delta_date_list` hard-coded in
src/astro_time/time_data.rs (Table 10.A of Meeus, biennial 1620-1972
including the negative 1872-1902 values, followed by monthly values
1973-02 through 2017-01; the commented-out rows of the source are
omitted): (year, month, day, delta-t in seconds).  The resulting list
is strictly increasing in date. -/
def timeDeltaDateList : List (ℤ × ℤ × ℤ × ℚ) :=
  [
    (1620, 1, 1, 121), (1622, 1, 1, 112), (1624, 1, 1, 103), (1626, 1, 1, 95),
    (1628, 1, 1, 88), (1630, 1, 1, 82), (1632, 1, 1, 77), (1634, 1, 1, 72),
    (1636, 1, 1, 68), (1638, 1, 1, 63), (1640, 1, 1, 60), (1642, 1, 1, 56),
    (1644, 1, 1, 53), (1646, 1, 1, 51), (1648, 1, 1, 48), (1650, 1, 1, 46),
    (1652, 1, 1, 44), (1654, 1, 1, 42), (1656, 1, 1, 40), (1658, 1, 1, 38),
    (1660, 1, 1, 35), (1662, 1, 1, 33), (1664, 1, 1, 31), (1666, 1, 1, 29),
    (1668, 1, 1, 26), (1670, 1, 1, 24), (1672, 1, 1, 22), (1674, 1, 1, 20),
    (1676, 1, 1, 18), (1678, 1, 1, 16), (1680, 1, 1, 14), (1682, 1, 1, 12),
    (1684, 1, 1, 11), (1686, 1, 1, 10), (1688, 1, 1, 9), (1690, 1, 1, 8),
    (1692, 1, 1, 7), (1694, 1, 1, 7), (1696, 1, 1, 7), (1698, 1, 1, 7),
    (1700, 1, 1, 7), (1702, 1, 1, 7), (1704, 1, 1, 8), (1706, 1, 1, 8),
    (1708, 1, 1, 9), (1710, 1, 1, 9), (1712, 1, 1, 9), (1714, 1, 1, 9),
    (1716, 1, 1, 9), (1718, 1, 1, 10), (1720, 1, 1, 10), (1722, 1, 1, 10),
    (1724, 1, 1, 10), (1726, 1, 1, 10), (1728, 1, 1, 10), (1730, 1, 1, 10),
    (1732, 1, 1, 10), (1734, 1, 1, 11), (1736, 1, 1, 11), (1738, 1, 1, 11),
    (1740, 1, 1, 11), (1742, 1, 1, 11), (1744, 1, 1, 12), (1746, 1, 1, 12),
    (1748, 1, 1, 12), (1750, 1, 1, 12), (1752, 1, 1, 13), (1754, 1, 1, 13),
    (1756, 1, 1, 13), (1758, 1, 1, 14), (1760, 1, 1, 14), (1762, 1, 1, 14),
    (1764, 1, 1, 14), (1766, 1, 1, 15), (1768, 1, 1, 15), (1770, 1, 1, 15),
    (1772, 1, 1, 15), (1774, 1, 1, 15), (1776, 1, 1, 16), (1778, 1, 1, 16),
    (1780, 1, 1, 16), (1782, 1, 1, 16), (1784, 1, 1, 16), (1786, 1, 1, 16),
    (1788, 1, 1, 16), (1790, 1, 1, 16), (1792, 1, 1, 15), (1794, 1, 1, 15),
    (1796, 1, 1, 14), (1798, 1, 1, 13), (1800, 1, 1, (131/10 : ℚ)), (1802, 1, 1, (25/2 : ℚ)),
    (1804, 1, 1, (61/5 : ℚ)), (1806, 1, 1, 12), (1808, 1, 1, 12), (1810, 1, 1, 12),
    (1812, 1, 1, 12), (1814, 1, 1, 12), (1816, 1, 1, 12), (1818, 1, 1, (119/10 : ℚ)),
    (1820, 1, 1, (58/5 : ℚ)), (1822, 1, 1, 11), (1824, 1, 1, (51/5 : ℚ)), (1826, 1, 1, (46/5 : ℚ)),
    (1828, 1, 1, (41/5 : ℚ)), (1830, 1, 1, (71/10 : ℚ)), (1832, 1, 1, (31/5 : ℚ)), (1834, 1, 1, (28/5 : ℚ)),
    (1836, 1, 1, (27/5 : ℚ)), (1838, 1, 1, (53/10 : ℚ)), (1840, 1, 1, (27/5 : ℚ)), (1842, 1, 1, (28/5 : ℚ)),
    (1844, 1, 1, (59/10 : ℚ)), (1846, 1, 1, (31/5 : ℚ)), (1848, 1, 1, (13/2 : ℚ)), (1850, 1, 1, (34/5 : ℚ)),
    (1852, 1, 1, (71/10 : ℚ)), (1854, 1, 1, (73/10 : ℚ)), (1856, 1, 1, (15/2 : ℚ)), (1858, 1, 1, (38/5 : ℚ)),
    (1860, 1, 1, (77/10 : ℚ)), (1862, 1, 1, (73/10 : ℚ)), (1864, 1, 1, (31/5 : ℚ)), (1866, 1, 1, (26/5 : ℚ)),
    (1868, 1, 1, (27/10 : ℚ)), (1870, 1, 1, (7/5 : ℚ)), (1872, 1, 1, (-6/5 : ℚ)), (1874, 1, 1, (-14/5 : ℚ)),
    (1876, 1, 1, (-19/5 : ℚ)), (1878, 1, 1, (-24/5 : ℚ)), (1880, 1, 1, (-11/2 : ℚ)), (1882, 1, 1, (-53/10 : ℚ)),
    (1884, 1, 1, (-28/5 : ℚ)), (1886, 1, 1, (-57/10 : ℚ)), (1888, 1, 1, (-59/10 : ℚ)), (1890, 1, 1, -6),
    (1892, 1, 1, (-63/10 : ℚ)), (1894, 1, 1, (-13/2 : ℚ)), (1896, 1, 1, (-31/5 : ℚ)), (1898, 1, 1, (-47/10 : ℚ)),
    (1900, 1, 1, (-14/5 : ℚ)), (1902, 1, 1, (-1/10 : ℚ)), (1904, 1, 1, (13/5 : ℚ)), (1906, 1, 1, (53/10 : ℚ)),
    (1908, 1, 1, (77/10 : ℚ)), (1910, 1, 1, (52/5 : ℚ)), (1912, 1, 1, (133/10 : ℚ)), (1914, 1, 1, 16),
    (1916, 1, 1, (91/5 : ℚ)), (1918, 1, 1, (101/5 : ℚ)), (1920, 1, 1, (211/10 : ℚ)), (1922, 1, 1, (112/5 : ℚ)),
    (1924, 1, 1, (47/2 : ℚ)), (1926, 1, 1, (119/5 : ℚ)), (1928, 1, 1, (243/10 : ℚ)), (1930, 1, 1, 24),
    (1932, 1, 1, (239/10 : ℚ)), (1934, 1, 1, (239/10 : ℚ)), (1936, 1, 1, (237/10 : ℚ)), (1938, 1, 1, 24),
    (1940, 1, 1, (243/10 : ℚ)), (1942, 1, 1, (253/10 : ℚ)), (1944, 1, 1, (131/5 : ℚ)), (1946, 1, 1, (273/10 : ℚ)),
    (1948, 1, 1, (141/5 : ℚ)), (1950, 1, 1, (291/10 : ℚ)), (1952, 1, 1, 30), (1954, 1, 1, (307/10 : ℚ)),
    (1956, 1, 1, (157/5 : ℚ)), (1958, 1, 1, (161/5 : ℚ)), (1960, 1, 1, (331/10 : ℚ)), (1962, 1, 1, 34),
    (1964, 1, 1, 35), (1966, 1, 1, (73/2 : ℚ)), (1968, 1, 1, (383/10 : ℚ)), (1970, 1, 1, (201/5 : ℚ)),
    (1972, 1, 1, (211/5 : ℚ)), (1973, 2, 1, (108681/2500 : ℚ)), (1973, 3, 1, (27228/625 : ℚ)), (1973, 4, 1, (436737/10000 : ℚ)),
    (1973, 5, 1, (218891/5000 : ℚ)), (1973, 6, 1, (438763/10000 : ℚ)), (1973, 7, 1, (219781/5000 : ℚ)), (1973, 8, 1, (88063/2000 : ℚ)),
    (1973, 9, 1, (110283/2500 : ℚ)), (1973, 10, 1, (220991/5000 : ℚ)), (1973, 11, 1, (55369/1250 : ℚ)), (1973, 12, 1, (27746/625 : ℚ)),
    (1974, 1, 1, (444841/10000 : ℚ)), (1974, 2, 1, (222823/5000 : ℚ)), (1974, 3, 1, (17857/400 : ℚ)), (1974, 4, 1, (223693/5000 : ℚ)),
    (1974, 5, 1, (44837/1000 : ℚ)), (1974, 6, 1, (224651/5000 : ℚ)), (1974, 7, 1, (224993/5000 : ℚ)), (1974, 8, 1, (56323/1250 : ℚ)),
    (1974, 9, 1, (112821/2500 : ℚ)), (1974, 10, 1, (28254/625 : ℚ)), (1974, 11, 1, (22649/500 : ℚ)), (1974, 12, 1, (453897/10000 : ℚ)),
    (1975, 1, 1, (454761/10000 : ℚ)), (1975, 2, 1, (455633/10000 : ℚ)), (1975, 3, 1, (9129/200 : ℚ)), (1975, 4, 1, (3659/80 : ℚ)),
    (1975, 5, 1, (114571/2500 : ℚ)), (1975, 6, 1, (459133/10000 : ℚ)), (1975, 7, 1, (22991/500 : ℚ)), (1975, 8, 1, (57551/1250 : ℚ)),
    (1975, 9, 1, (461067/10000 : ℚ)), (1975, 10, 1, (18473/400 : ℚ)), (1975, 11, 1, (462789/10000 : ℚ)), (1975, 12, 1, (463713/10000 : ℚ)),
    (1976, 1, 1, (464567/10000 : ℚ)), (1976, 2, 1, (93089/2000 : ℚ)), (1976, 3, 1, (466311/10000 : ℚ)), (1976, 4, 1, (233651/5000 : ℚ)),
    (1976, 5, 1, (117071/2500 : ℚ)), (1976, 6, 1, (469247/10000 : ℚ)), (1976, 7, 1, (46997/1000 : ℚ)), (1976, 8, 1, (470709/10000 : ℚ)),
    (1976, 9, 1, (471451/10000 : ℚ)), (1976, 10, 1, (236181/5000 : ℚ)), (1976, 11, 1, (473413/10000 : ℚ)), (1976, 12, 1, (474319/10000 : ℚ)),
    (1977, 1, 1, (237607/5000 : ℚ)), (1977, 2, 1, (476049/10000 : ℚ)), (1977, 3, 1, (476837/10000 : ℚ)), (1977, 4, 1, (477781/10000 : ℚ)),
    (1977, 5, 1, (478771/10000 : ℚ)), (1977, 6, 1, (479687/10000 : ℚ)), (1977, 7, 1, (120087/2500 : ℚ)), (1977, 8, 1, (240471/5000 : ℚ)),
    (1977, 9, 1, (60201/1250 : ℚ)), (1977, 10, 1, (24123/500 : ℚ)), (1977, 11, 1, (483439/10000 : ℚ)), (1977, 12, 1, (96871/2000 : ℚ)),
    (1978, 1, 1, (30334/625 : ℚ)), (1978, 2, 1, (19453/400 : ℚ)), (1978, 3, 1, (243647/5000 : ℚ)), (1978, 4, 1, (97673/2000 : ℚ)),
    (1978, 5, 1, (489353/10000 : ℚ)), (1978, 6, 1, (490319/10000 : ℚ)), (1978, 7, 1, (491013/10000 : ℚ)), (1978, 8, 1, (491591/10000 : ℚ)),
    (1978, 9, 1, (246143/5000 : ℚ)), (1978, 10, 1, (49307/1000 : ℚ)), (1978, 11, 1, (247009/5000 : ℚ)), (1978, 12, 1, (98989/2000 : ℚ)),
    (1979, 1, 1, (247931/5000 : ℚ)), (1979, 2, 1, (99361/2000 : ℚ)), (1979, 3, 1, (248801/5000 : ℚ)), (1979, 4, 1, (124639/2500 : ℚ)),
    (1979, 5, 1, (499489/10000 : ℚ)), (1979, 6, 1, (500347/10000 : ℚ)), (1979, 7, 1, (501019/10000 : ℚ)), (1979, 8, 1, (250811/5000 : ℚ)),
    (1979, 9, 1, (25113/500 : ℚ)), (1979, 10, 1, (62871/1250 : ℚ)), (1979, 11, 1, (503831/10000 : ℚ)), (1979, 12, 1, (504599/10000 : ℚ)),
    (1980, 1, 1, (505387/10000 : ℚ)), (1980, 2, 1, (506161/10000 : ℚ)), (1980, 3, 1, (253433/5000 : ℚ)), (1980, 4, 1, (253829/5000 : ℚ)),
    (1980, 5, 1, (254227/5000 : ℚ)), (1980, 6, 1, (509187/10000 : ℚ)), (1980, 7, 1, (509761/10000 : ℚ)), (1980, 8, 1, (255139/5000 : ℚ)),
    (1980, 9, 1, (510843/10000 : ℚ)), (1980, 10, 1, (255769/5000 : ℚ)), (1980, 11, 1, (512319/10000 : ℚ)), (1980, 12, 1, (513063/10000 : ℚ)),
    (1981, 1, 1, (32113/625 : ℚ)), (1981, 2, 1, (257263/5000 : ℚ)), (1981, 3, 1, (12879/250 : ℚ)), (1981, 4, 1, (103197/2000 : ℚ)),
    (1981, 5, 1, (516809/10000 : ℚ)), (1981, 6, 1, (517573/10000 : ℚ)), (1981, 7, 1, (518133/10000 : ℚ)), (1981, 8, 1, (129633/2500 : ℚ)),
    (1981, 9, 1, (259507/5000 : ℚ)), (1981, 10, 1, (519603/10000 : ℚ)), (1981, 11, 1, (65041/1250 : ℚ)), (1981, 12, 1, (104197/2000 : ℚ)),
    (1982, 1, 1, (130417/2500 : ℚ)), (1982, 2, 1, (130579/2500 : ℚ)), (1982, 3, 1, (261469/5000 : ℚ)), (1982, 4, 1, (6546/125 : ℚ)),
    (1982, 5, 1, (104893/2000 : ℚ)), (1982, 6, 1, (26259/500 : ℚ)), (1982, 7, 1, (65719/1250 : ℚ)), (1982, 8, 1, (263089/5000 : ℚ)),
    (1982, 9, 1, (131667/2500 : ℚ)), (1982, 10, 1, (26367/500 : ℚ)), (1982, 11, 1, (66007/1250 : ℚ)), (1982, 12, 1, (66099/1250 : ℚ)),
    (1983, 1, 1, (105913/2000 : ℚ)), (1983, 2, 1, (106089/2000 : ℚ)), (1983, 3, 1, (132817/2500 : ℚ)), (1983, 4, 1, (532197/10000 : ℚ)),
    (1983, 5, 1, (33314/625 : ℚ)), (1983, 6, 1, (533747/10000 : ℚ)), (1983, 7, 1, (106867/2000 : ℚ)), (1983, 8, 1, (267389/5000 : ℚ)),
    (1983, 9, 1, (5353/100 : ℚ)), (1983, 10, 1, (107169/2000 : ℚ)), (1983, 11, 1, (536523/10000 : ℚ)), (1983, 12, 1, (67157/1250 : ℚ)),
    (1984, 1, 1, (268941/5000 : ℚ)), (1984, 2, 1, (538367/10000 : ℚ)), (1984, 3, 1, (53883/1000 : ℚ)), (1984, 4, 1, (539443/10000 : ℚ)),
    (1984, 5, 1, (270021/5000 : ℚ)), (1984, 6, 1, (67567/1250 : ℚ)), (1984, 7, 1, (67607/1250 : ℚ)), (1984, 8, 1, (135271/2500 : ℚ)),
    (1984, 9, 1, (541463/10000 : ℚ)), (1984, 10, 1, (270957/5000 : ℚ)), (1984, 11, 1, (135613/2500 : ℚ)), (1984, 12, 1, (271479/5000 : ℚ)),
    (1985, 1, 1, (543427/10000 : ℚ)), (1985, 2, 1, (543911/10000 : ℚ)), (1985, 3, 1, (6804/125 : ℚ)), (1985, 4, 1, (272449/5000 : ℚ)),
    (1985, 5, 1, (34091/625 : ℚ)), (1985, 6, 1, (545977/10000 : ℚ)), (1985, 7, 1, (109271/2000 : ℚ)), (1985, 8, 1, (136633/2500 : ℚ)),
    (1985, 9, 1, (68347/1250 : ℚ)), (1985, 10, 1, (273587/5000 : ℚ)), (1985, 11, 1, (547741/10000 : ℚ)), (1985, 12, 1, (548253/10000 : ℚ)),
    (1986, 1, 1, (548713/10000 : ℚ)), (1986, 2, 1, (549161/10000 : ℚ)), (1986, 3, 1, (549581/10000 : ℚ)), (1986, 4, 1, (549997/10000 : ℚ)),
    (1986, 5, 1, (137619/2500 : ℚ)), (1986, 6, 1, (34432/625 : ℚ)), (1986, 7, 1, (137783/2500 : ℚ)), (1986, 8, 1, (34458/625 : ℚ)),
    (1986, 9, 1, (137883/2500 : ℚ)), (1986, 10, 1, (275949/5000 : ℚ)), (1986, 11, 1, (34526/625 : ℚ)), (1986, 12, 1, (276419/5000 : ℚ)),
    (1987, 1, 1, (276611/5000 : ℚ)), (1987, 2, 1, (553613/10000 : ℚ)), (1987, 3, 1, (554063/10000 : ℚ)), (1987, 4, 1, (554629/10000 : ℚ)),
    (1987, 5, 1, (555111/10000 : ℚ)), (1987, 6, 1, (138881/2500 : ℚ)), (1987, 7, 1, (138953/2500 : ℚ)), (1987, 8, 1, (139001/2500 : ℚ)),
    (1987, 9, 1, (278131/5000 : ℚ)), (1987, 10, 1, (34791/625 : ℚ)), (1987, 11, 1, (34823/625 : ℚ)), (1987, 12, 1, (278849/5000 : ℚ)),
    (1988, 1, 1, (558197/10000 : ℚ)), (1988, 2, 1, (111723/2000 : ℚ)), (1988, 3, 1, (55913/1000 : ℚ)), (1988, 4, 1, (559663/10000 : ℚ)),
    (1988, 5, 1, (28011/500 : ℚ)), (1988, 6, 1, (5607/100 : ℚ)), (1988, 7, 1, (560939/10000 : ℚ)), (1988, 8, 1, (112221/2000 : ℚ)),
    (1988, 9, 1, (280657/5000 : ℚ)), (1988, 10, 1, (561611/10000 : ℚ)), (1988, 11, 1, (140517/2500 : ℚ)), (1988, 12, 1, (562583/10000 : ℚ)),
    (1989, 1, 1, (563/10 : ℚ)), (1989, 2, 1, (563399/10000 : ℚ)), (1989, 3, 1, (56379/1000 : ℚ)), (1989, 4, 1, (564283/10000 : ℚ)),
    (1989, 5, 1, (141201/2500 : ℚ)), (1989, 6, 1, (70669/1250 : ℚ)), (1989, 7, 1, (565697/10000 : ℚ)), (1989, 8, 1, (565983/10000 : ℚ)),
    (1989, 9, 1, (70791/1250 : ℚ)), (1989, 10, 1, (566739/10000 : ℚ)), (1989, 11, 1, (141833/2500 : ℚ)), (1989, 12, 1, (141993/2500 : ℚ)),
    (1990, 1, 1, (568553/10000 : ℚ)), (1990, 2, 1, (569111/10000 : ℚ)), (1990, 3, 1, (113951/2000 : ℚ)), (1990, 4, 1, (570471/10000 : ℚ)),
    (1990, 5, 1, (35696/625 : ℚ)), (1990, 6, 1, (285869/5000 : ℚ)), (1990, 7, 1, (286113/5000 : ℚ)), (1990, 8, 1, (572597/10000 : ℚ)),
    (1990, 9, 1, (573073/10000 : ℚ)), (1990, 10, 1, (573643/10000 : ℚ)), (1990, 11, 1, (287167/5000 : ℚ)), (1990, 12, 1, (71877/1250 : ℚ)),
    (1991, 1, 1, (575653/10000 : ℚ)), (1991, 2, 1, (576333/10000 : ℚ)), (1991, 3, 1, (576973/10000 : ℚ)), (1991, 4, 1, (577711/10000 : ℚ)),
    (1991, 5, 1, (578407/10000 : ℚ)), (1991, 6, 1, (289529/5000 : ℚ)), (1991, 7, 1, (72447/1250 : ℚ)), (1991, 8, 1, (23199/400 : ℚ)),
    (1991, 9, 1, (290213/5000 : ℚ)), (1991, 10, 1, (581043/10000 : ℚ)), (1991, 11, 1, (581679/10000 : ℚ)), (1991, 12, 1, (582389/10000 : ℚ)),
    (1992, 1, 1, (145773/2500 : ℚ)), (1992, 2, 1, (583833/10000 : ℚ)), (1992, 3, 1, (584537/10000 : ℚ)), (1992, 4, 1, (585401/10000 : ℚ)),
    (1992, 5, 1, (146557/2500 : ℚ)), (1992, 6, 1, (586917/10000 : ℚ)), (1992, 7, 1, (58741/1000 : ℚ)), (1992, 8, 1, (146959/2500 : ℚ)),
    (1992, 9, 1, (294203/5000 : ℚ)), (1992, 10, 1, (294493/5000 : ℚ)), (1992, 11, 1, (294857/5000 : ℚ)), (1992, 12, 1, (295219/5000 : ℚ)),
    (1993, 1, 1, (295609/5000 : ℚ)), (1993, 2, 1, (592003/10000 : ℚ)), (1993, 3, 1, (592747/10000 : ℚ)), (1993, 4, 1, (296787/5000 : ℚ)),
    (1993, 5, 1, (297217/5000 : ℚ)), (1993, 6, 1, (297621/5000 : ℚ)), (1993, 7, 1, (11917/200 : ℚ)), (1993, 8, 1, (74543/1250 : ℚ)),
    (1993, 9, 1, (37308/625 : ℚ)), (1993, 10, 1, (149397/2500 : ℚ)), (1993, 11, 1, (299193/5000 : ℚ)), (1993, 12, 1, (599111/10000 : ℚ)),
    (1994, 1, 1, (119969/2000 : ℚ)), (1994, 2, 1, (150141/2500 : ℚ)), (1994, 3, 1, (601231/10000 : ℚ)), (1994, 4, 1, (301021/5000 : ℚ)),
    (1994, 5, 1, (150701/2500 : ℚ)), (1994, 6, 1, (60353/1000 : ℚ)), (1994, 7, 1, (151003/2500 : ℚ)), (1994, 8, 1, (15111/250 : ℚ)),
    (1994, 9, 1, (6049/100 : ℚ)), (1994, 10, 1, (302789/5000 : ℚ)), (1994, 11, 1, (151581/2500 : ℚ)), (1994, 12, 1, (607059/10000 : ℚ)),
    (1995, 1, 1, (607853/10000 : ℚ)), (1995, 2, 1, (76083/1250 : ℚ)), (1995, 3, 1, (609387/10000 : ℚ)), (1995, 4, 1, (610277/10000 : ℚ)),
    (1995, 5, 1, (611103/10000 : ℚ)), (1995, 6, 1, (61187/1000 : ℚ)), (1995, 7, 1, (306227/5000 : ℚ)), (1995, 8, 1, (612881/10000 : ℚ)),
    (1995, 9, 1, (306689/5000 : ℚ)), (1995, 10, 1, (153509/2500 : ℚ)), (1995, 11, 1, (15369/250 : ℚ)), (1995, 12, 1, (24621/400 : ℚ)),
    (1996, 1, 1, (616287/10000 : ℚ)), (1996, 2, 1, (308423/5000 : ℚ)), (1996, 3, 1, (617433/10000 : ℚ)), (1996, 4, 1, (154533/2500 : ℚ)),
    (1996, 5, 1, (618823/10000 : ℚ)), (1996, 6, 1, (619497/10000 : ℚ)), (1996, 7, 1, (619969/10000 : ℚ)), (1996, 8, 1, (620343/10000 : ℚ)),
    (1996, 9, 1, (310357/5000 : ℚ)), (1996, 10, 1, (310601/5000 : ℚ)), (1996, 11, 1, (62181/1000 : ℚ)), (1996, 12, 1, (311191/5000 : ℚ)),
    (1997, 1, 1, (12459/200 : ℚ)), (1997, 2, 1, (311753/5000 : ℚ)), (1997, 3, 1, (124799/2000 : ℚ)), (1997, 4, 1, (312377/5000 : ℚ)),
    (1997, 5, 1, (625463/10000 : ℚ)), (1997, 6, 1, (78267/1250 : ℚ)), (1997, 7, 1, (626571/10000 : ℚ)), (1997, 8, 1, (313471/5000 : ℚ)),
    (1997, 9, 1, (627383/10000 : ℚ)), (1997, 10, 1, (313963/5000 : ℚ)), (1997, 11, 1, (628567/10000 : ℚ)), (1997, 12, 1, (314573/5000 : ℚ)),
    (1998, 1, 1, (629659/10000 : ℚ)), (1998, 2, 1, (630217/10000 : ℚ)), (1998, 3, 1, (630807/10000 : ℚ)), (1998, 4, 1, (315731/5000 : ℚ)),
    (1998, 5, 1, (632053/10000 : ℚ)), (1998, 6, 1, (632599/10000 : ℚ)), (1998, 7, 1, (158211/2500 : ℚ)), (1998, 8, 1, (632961/10000 : ℚ)),
    (1998, 9, 1, (316563/5000 : ℚ)), (1998, 10, 1, (316711/5000 : ℚ)), (1998, 11, 1, (633871/10000 : ℚ)), (1998, 12, 1, (634339/10000 : ℚ)),
    (1999, 1, 1, (634673/10000 : ℚ)), (1999, 2, 1, (634979/10000 : ℚ)), (1999, 3, 1, (635319/10000 : ℚ)), (1999, 4, 1, (635679/10000 : ℚ)),
    (1999, 5, 1, (79513/1250 : ℚ)), (1999, 6, 1, (159111/2500 : ℚ)), (1999, 7, 1, (318321/5000 : ℚ)), (1999, 8, 1, (636739/10000 : ℚ)),
    (1999, 9, 1, (318463/5000 : ℚ)), (1999, 10, 1, (637147/10000 : ℚ)), (1999, 11, 1, (318759/5000 : ℚ)), (1999, 12, 1, (637927/10000 : ℚ)),
    (2000, 1, 1, (127657/2000 : ℚ)), (2000, 2, 1, (638557/10000 : ℚ)), (2000, 3, 1, (159701/2500 : ℚ)), (2000, 4, 1, (25563/400 : ℚ)),
    (2000, 5, 1, (639393/10000 : ℚ)), (2000, 6, 1, (639691/10000 : ℚ)), (2000, 7, 1, (639799/10000 : ℚ)), (2000, 8, 1, (639833/10000 : ℚ)),
    (2000, 9, 1, (319969/5000 : ℚ)), (2000, 10, 1, (640093/10000 : ℚ)), (2000, 11, 1, (1601/25 : ℚ)), (2000, 12, 1, (64067/1000 : ℚ)),
    (2001, 1, 1, (160227/2500 : ℚ)), (2001, 2, 1, (160267/2500 : ℚ)), (2001, 3, 1, (320641/5000 : ℚ)), (2001, 4, 1, (40099/625 : ℚ)),
    (2001, 5, 1, (641833/10000 : ℚ)), (2001, 6, 1, (321047/5000 : ℚ)), (2001, 7, 1, (642117/10000 : ℚ)), (2001, 8, 1, (642073/10000 : ℚ)),
    (2001, 9, 1, (160529/2500 : ℚ)), (2001, 10, 1, (642223/10000 : ℚ)), (2001, 11, 1, (257/4 : ℚ)), (2001, 12, 1, (642761/10000 : ℚ)),
    (2002, 1, 1, (321499/5000 : ℚ)), (2002, 2, 1, (80399/1250 : ℚ)), (2002, 3, 1, (12869/200 : ℚ)), (2002, 4, 1, (128747/2000 : ℚ)),
    (2002, 5, 1, (643943/10000 : ℚ)), (2002, 6, 1, (644151/10000 : ℚ)), (2002, 7, 1, (161033/2500 : ℚ)), (2002, 8, 1, (322059/5000 : ℚ)),
    (2002, 9, 1, (644097/10000 : ℚ)), (2002, 10, 1, (80521/1250 : ℚ)), (2002, 11, 1, (644329/10000 : ℚ)), (2002, 12, 1, (644511/10000 : ℚ)),
    (2003, 1, 1, (322367/5000 : ℚ)), (2003, 2, 1, (644893/10000 : ℚ)), (2003, 3, 1, (645053/10000 : ℚ)), (2003, 4, 1, (645269/10000 : ℚ)),
    (2003, 5, 1, (645471/10000 : ℚ)), (2003, 6, 1, (645597/10000 : ℚ)), (2003, 7, 1, (80689/1250 : ℚ)), (2003, 8, 1, (645371/10000 : ℚ)),
    (2003, 9, 1, (645359/10000 : ℚ)), (2003, 10, 1, (129083/2000 : ℚ)), (2003, 11, 1, (80693/1250 : ℚ)), (2003, 12, 1, (322827/5000 : ℚ)),
    (2004, 1, 1, (80717/1250 : ℚ)), (2004, 2, 1, (645891/10000 : ℚ)), (2004, 3, 1, (129203/2000 : ℚ)), (2004, 4, 1, (40386/625 : ℚ)),
    (2004, 5, 1, (323187/5000 : ℚ)), (2004, 6, 1, (646549/10000 : ℚ)), (2004, 7, 1, (64653/1000 : ℚ)), (2004, 8, 1, (646379/10000 : ℚ)),
    (2004, 9, 1, (161593/2500 : ℚ)), (2004, 10, 1, (1616/25 : ℚ)), (2004, 11, 1, (646543/10000 : ℚ)), (2004, 12, 1, (646723/10000 : ℚ)),
    (2005, 1, 1, (161719/2500 : ℚ)), (2005, 2, 1, (161763/2500 : ℚ)), (2005, 3, 1, (647313/10000 : ℚ)), (2005, 4, 1, (25903/400 : ℚ)),
    (2005, 5, 1, (647811/10000 : ℚ)), (2005, 6, 1, (648001/10000 : ℚ)), (2005, 7, 1, (129599/2000 : ℚ)), (2005, 8, 1, (161969/2500 : ℚ)),
    (2005, 9, 1, (647831/10000 : ℚ)), (2005, 10, 1, (647921/10000 : ℚ)), (2005, 11, 1, (40506/625 : ℚ)), (2005, 12, 1, (648311/10000 : ℚ)),
    (2006, 1, 1, (162113/2500 : ℚ)), (2006, 2, 1, (648597/10000 : ℚ)), (2006, 3, 1, (12977/200 : ℚ)), (2006, 4, 1, (25967/400 : ℚ)),
    (2006, 5, 1, (16237/250 : ℚ)), (2006, 6, 1, (324897/5000 : ℚ)), (2006, 7, 1, (129979/2000 : ℚ)), (2006, 8, 1, (162507/2500 : ℚ)),
    (2006, 9, 1, (325069/5000 : ℚ)), (2006, 10, 1, (650371/10000 : ℚ)), (2006, 11, 1, (650773/10000 : ℚ)), (2006, 12, 1, (325561/5000 : ℚ)),
    (2007, 1, 1, (81433/1250 : ℚ)), (2007, 2, 1, (651833/10000 : ℚ)), (2007, 3, 1, (130429/2000 : ℚ)), (2007, 4, 1, (326247/5000 : ℚ)),
    (2007, 5, 1, (652921/10000 : ℚ)), (2007, 6, 1, (653279/10000 : ℚ)), (2007, 7, 1, (653413/10000 : ℚ)), (2007, 8, 1, (163363/2500 : ℚ)),
    (2007, 9, 1, (81687/1250 : ℚ)), (2007, 10, 1, (653711/10000 : ℚ)), (2007, 11, 1, (163493/2500 : ℚ)), (2007, 12, 1, (81787/1250 : ℚ)),
    (2008, 1, 1, (654573/10000 : ℚ)), (2008, 2, 1, (163717/2500 : ℚ)), (2008, 3, 1, (40947/625 : ℚ)), (2008, 4, 1, (13109/200 : ℚ)),
    (2008, 5, 1, (655781/10000 : ℚ)), (2008, 6, 1, (656127/10000 : ℚ)), (2008, 7, 1, (41018/625 : ℚ)), (2008, 8, 1, (65637/1000 : ℚ)),
    (2008, 9, 1, (656493/10000 : ℚ)), (2008, 10, 1, (16419/250 : ℚ)), (2008, 11, 1, (657097/10000 : ℚ)), (2008, 12, 1, (657461/10000 : ℚ)),
    (2009, 1, 1, (82221/1250 : ℚ)), (2009, 2, 1, (26321/400 : ℚ)), (2009, 3, 1, (658237/10000 : ℚ)), (2009, 4, 1, (131719/2000 : ℚ)),
    (2009, 5, 1, (658973/10000 : ℚ)), (2009, 6, 1, (659323/10000 : ℚ)), (2009, 7, 1, (659509/10000 : ℚ)), (2009, 8, 1, (329767/5000 : ℚ)),
    (2009, 9, 1, (164907/2500 : ℚ)), (2009, 10, 1, (659839/10000 : ℚ)), (2009, 11, 1, (660147/10000 : ℚ)), (2009, 12, 1, (33021/500 : ℚ)),
    (2010, 1, 1, (660699/10000 : ℚ)), (2010, 2, 1, (660961/10000 : ℚ)), (2010, 3, 1, (66131/1000 : ℚ)), (2010, 4, 1, (661683/10000 : ℚ)),
    (2010, 5, 1, (82759/1250 : ℚ)), (2010, 6, 1, (165589/2500 : ℚ)), (2010, 7, 1, (662409/10000 : ℚ)), (2010, 8, 1, (132467/2000 : ℚ)),
    (2010, 9, 1, (662349/10000 : ℚ)), (2010, 10, 1, (662441/10000 : ℚ)), (2010, 11, 1, (662751/10000 : ℚ)), (2010, 12, 1, (331527/5000 : ℚ)),
    (2011, 1, 1, (331623/5000 : ℚ)), (2011, 2, 1, (331703/5000 : ℚ)), (2011, 3, 1, (82953/1250 : ℚ)), (2011, 4, 1, (663957/10000 : ℚ)),
    (2011, 5, 1, (664289/10000 : ℚ)), (2011, 6, 1, (664619/10000 : ℚ)), (2011, 7, 1, (664749/10000 : ℚ)), (2011, 8, 1, (664751/10000 : ℚ)),
    (2011, 9, 1, (664829/10000 : ℚ)), (2011, 10, 1, (41566/625 : ℚ)), (2011, 11, 1, (665383/10000 : ℚ)), (2011, 12, 1, (332853/5000 : ℚ)),
    (2012, 1, 1, (66603/1000 : ℚ)), (2012, 2, 1, (33317/500 : ℚ)), (2012, 3, 1, (666569/10000 : ℚ)), (2012, 4, 1, (26677/400 : ℚ)),
    (2012, 5, 1, (667289/10000 : ℚ)), (2012, 6, 1, (667579/10000 : ℚ)), (2012, 7, 1, (166927/2500 : ℚ)), (2012, 8, 1, (33387/500 : ℚ)),
    (2012, 9, 1, (333923/5000 : ℚ)), (2012, 10, 1, (668103/10000 : ℚ)), (2012, 11, 1, (1671/25 : ℚ)), (2012, 12, 1, (668779/10000 : ℚ)),
    (2013, 1, 1, (669069/10000 : ℚ)), (2013, 2, 1, (669443/10000 : ℚ)), (2013, 3, 1, (669763/10000 : ℚ)), (2013, 4, 1, (335129/5000 : ℚ)),
    (2013, 5, 1, (167679/2500 : ℚ)), (2013, 6, 1, (6711/100 : ℚ)), (2013, 7, 1, (335633/5000 : ℚ)), (2013, 8, 1, (671331/10000 : ℚ)),
    (2013, 9, 1, (335729/5000 : ℚ)), (2013, 10, 1, (671717/10000 : ℚ)), (2013, 11, 1, (672091/10000 : ℚ)), (2013, 12, 1, (33623/500 : ℚ)),
    (2014, 1, 1, (67281/1000 : ℚ)), (2014, 2, 1, (42071/625 : ℚ)), (2014, 3, 1, (673457/10000 : ℚ)), (2014, 4, 1, (67389/1000 : ℚ)),
    (2014, 5, 1, (337159/5000 : ℚ)), (2014, 6, 1, (337333/5000 : ℚ)), (2014, 7, 1, (337429/5000 : ℚ)), (2014, 8, 1, (674989/10000 : ℚ)),
    (2014, 9, 1, (675111/10000 : ℚ)), (2014, 10, 1, (675353/10000 : ℚ)), (2014, 11, 1, (675711/10000 : ℚ)), (2014, 12, 1, (67607/1000 : ℚ)),
    (2015, 1, 1, (676439/10000 : ℚ)), (2015, 2, 1, (135353/2000 : ℚ)), (2015, 3, 1, (677117/10000 : ℚ)), (2015, 4, 1, (677591/10000 : ℚ)),
    (2015, 5, 1, (169503/2500 : ℚ)), (2015, 6, 1, (339201/5000 : ℚ)), (2015, 7, 1, (339303/5000 : ℚ)), (2015, 8, 1, (339411/5000 : ℚ)),
    (2015, 9, 1, (8489/125 : ℚ)), (2015, 10, 1, (339773/5000 : ℚ)), (2015, 11, 1, (136011/2000 : ℚ)), (2015, 12, 1, (340257/5000 : ℚ)),
    (2016, 1, 1, (42564/625 : ℚ)), (2016, 2, 1, (681577/10000 : ℚ)), (2016, 3, 1, (170511/2500 : ℚ)), (2016, 4, 1, (136533/2000 : ℚ)),
    (2016, 5, 1, (170797/2500 : ℚ)), (2016, 6, 1, (683703/10000 : ℚ)), (2016, 7, 1, (170991/2500 : ℚ)), (2016, 8, 1, (342047/5000 : ℚ)),
    (2016, 9, 1, (136861/2000 : ℚ)), (2016, 10, 1, (68463/1000 : ℚ)), (2016, 11, 1, (342539/5000 : ℚ)), (2016, 12, 1, (685537/10000 : ℚ)),
    (2017, 1, 1, (85741/1250 : ℚ))
  ]

/-- `TIME_DELTA` (src/astro_time/time_data.rs, bottom): each date is
converted to a Julian Day by `AstroTmBldr::from_gregorian_utc(y,m,d,0,0,0)`;
every date in the list is a valid Gregorian date with non-negative Julian
Day, so the builder always takes its `Ok` arm with value
`gregorian_jd y m d 0 0 0` (the `Err` arm is a panic and is unreachable). -/
def TIME_DELTA : List (ℚ × ℚ) :=
  timeDeltaDateList.map (fun e => (gregorian_jd e.1 e.2.1 e.2.2.1 0 0 0, e.2.2.2))

/-- The backward search of `AstroTime::get_delta_t`
(src/astro_time/mod.rs lines 536-545): scan `ii` from `k` down to `0` and
return the first index whose table Julian Day is strictly below the query;
`none` when no index qualifies (in Rust `i` then remains `usize::MAX` and
the subsequent `TIME_DELTA[i]` panics). -/
def search_delta_idx (jd : ℚ) : ℕ → Option ℕ
  | 0 => if (TIME_DELTA.getD 0 (0, 0)).1 < jd then some 0 else none
  | (k+1) => if (TIME_DELTA.getD (k+1) (0, 0)).1 < jd then some (k+1)
             else search_delta_idx jd k

/-- `AstroTime::get_delta_t` (src/astro_time/mod.rs lines 529-572) as a
function of the Julian Day: linear interpolation between the bracketing
table samples inside the table span, fallback polynomials outside (with
`t` measured from the Julian Day of 2000-01-01 00:00 UT in units of
36524.25 days, exactly as in the source).  The `none` value models the
out-of-bounds panic `TIME_DELTA[usize::MAX]` that fires when no index
satisfies the strict search (which happens exactly when the query equals
the first table entry). -/
def get_delta_t (jd : ℚ) : Option ℚ :=
  if (TIME_DELTA.getD 0 (0, 0)).1 ≤ jd ∧
      jd < (TIME_DELTA.getD (TIME_DELTA.length - 1) (0, 0)).1 then
    match search_delta_idx jd (TIME_DELTA.length - 2) with
    | some i =>
        let left := (TIME_DELTA.getD i (0, 0)).1
        let bottom := (TIME_DELTA.getD i (0, 0)).2
        let right := (TIME_DELTA.getD (i + 1) (0, 0)).1
        let top := (TIME_DELTA.getD (i + 1) (0, 0)).2
        some (((top - bottom) / (right - left) * (jd - left) + bottom) / 86400)
    | none => none
  else
    let t : ℚ := (jd - gregorian_jd 2000 1 1 0 0 0) / 36524.25
    if jd < gregorian_jd 948 1 1 0 0 0 then
      some ((2177 + 497 * t + 44.1 * t * t) / 86400)
    else
      some ((102 + 102 * t + 25.3 * t * t) / 86400)

/-- `AstroTime::as_utc` (src/astro_time/mod.rs lines 500-514); `none`
propagates the `get_delta_t` panic model. -/
def as_utc (t : AstroTime) : Option (AstroResult AstroTime) :=
  if t.time_type = TimeType.UT then some (from_julian_date t.julian_day)
  else (get_delta_t t.julian_day).map
    (fun dt => from_julian_date (t.julian_day - dt))

/-- `AstroTime::as_dt` (src/astro_time/mod.rs lines 517-525). -/
def as_dt (t : AstroTime) : Option (AstroResult AstroTime) :=
  if t.time_type = TimeType.DT then some (from_julian_date_dt t.julian_day)
  else (get_delta_t t.julian_day).map
    (fun dt => from_julian_date_dt (t.julian_day + dt))

/-- The century-like interval used by the out-of-table fallback of
`AstroTime::get_delta_t` (src/astro_time/mod.rs lines 560-563): days
since the Julian Day of 2000-01-01 00:00 UT, divided by 36524.25. -/
def delta_t_t (jd : ℚ) : ℚ := (jd - gregorian_jd 2000 1 1 0 0 0) / 36524.25

/-- Executable check that the first components of a sample list are
strictly increasing. -/
def sorted_fst : List (ℚ × ℚ) → Bool
  | a :: b :: rest => (decide (a.1 < b.1)) && sorted_fst (b :: rest)
  | _ => true

/-! ## Precession century intervals and rotation polynomials (src/coords/precession.rs) -/

/-- `T` as computed by `precess_coords` (src/coords/precession.rs line
55): centuries from JD 2451545.0 to the source epoch, taken from the
raw `julian_day_number` of the coordinates' epoch. -/
def precess_T (jd0 : ℚ) : ℚ := (jd0 - 2451545) / 36525

/-- `t` as computed by `precess_coords` (src/coords/precession.rs line
56): centuries from the source epoch to the target epoch, again from
raw `julian_day_number` values. -/
def precess_small_t (jd0 jd1 : ℚ) : ℚ := (jd1 - jd0) / 36525

/-- `first_term` of src/coords/precession.rs line 58 (arcseconds). -/
def precess_first_term (T t : ℚ) : ℚ :=
  (2306.2181 + (1.39656 - 0.000139 * T) * T) * t

/-- `zeta` of src/coords/precession.rs line 59 (arcseconds). -/
def precess_zeta (T t : ℚ) : ℚ :=
  precess_first_term T t + ((0.30188 - 0.000344 * T) + 0.017998 * t) * t * t

/-- `z` of src/coords/precession.rs line 60 (arcseconds). -/
def precess_z (T t : ℚ) : ℚ :=
  precess_first_term T t + ((1.09468 + 0.000066 * T) + 0.018203 * t) * t * t

/-- `theta` of src/coords/precession.rs lines 61-62 (arcseconds). -/
def precess_theta (T t : ℚ) : ℚ :=
  ((2004.3109 - (0.8533 - 0.000217 * T) * T) -
    ((0.42665 + 0.000217 * T) - 0.041833 * t) * t) * t

/-! ## Coordinate frames and transformations over ℝ (src/coords/mod.rs)

Trigonometric functions force the embedding into the real numbers here;
f64 trig is embedded as exact real trig. -/

open Real

/-- `f64::atan2(y, x)` restricted to real arguments: the four-quadrant
arctangent with range `(-pi, pi]`, i.e. the complex argument of
`x + y*I` (`RadianAngle::atan2` wraps it, src/angles.rs lines 227-230). -/
noncomputable def atan2 (y x : ℝ) : ℝ := Complex.arg (x + y * Complex.I)

/-- `EquatorialCoords` (src/coords/mod.rs lines 59-63): declination and
right ascension in radians plus the epoch. -/
structure EquatorialCoords where
  declination : ℝ
  right_acension : ℝ
  epoch : AstroTime

/-- `GeoCoords` (src/coords/mod.rs lines 129-133): latitude and
longitude in radians; the stored longitude uses the astronomical
west-positive convention. -/
structure GeoCoords where
  latitude : ℝ
  longitude : ℝ

/-- `GeoCoords::new_degrees(lat, lon)` (src/coords/mod.rs lines
136-142): converts the degree payloads to radians and negates the
longitude (east-positive input, west-positive storage). -/
noncomputable def GeoCoords.new_degrees (lat lon : ℝ) : GeoCoords :=
  { latitude := lat * π / 180, longitude := -(lon * π / 180) }

/-- `HorizontalCoords` (src/coords/mod.rs lines 113-121). -/
structure HorizontalCoords where
  altitude : ℝ
  azimuth : ℝ
  observer_loc : GeoCoords
  valid_time : AstroTime

/-- Modelled from the spec: the Greenwich mean sidereal time polynomial
in degrees.  `AstroTime::mean_sidereal_greenwich` is called by
`local_mean_sidereal_time` (src/coords/mod.rs line 226) but is not
among the sources; the spec (section 4.4) names it only as "Greenwich
mean sidereal time", so the standard Meeus chapter-12 formula is used.
The round-trip theorem below does not depend on this choice: only the
fact that both transformation directions use the same sidereal value
matters. -/
def gmst_degrees (jd : ℚ) : ℚ :=
  let T := (jd - 2451545) / 36525
  280.46061837 + 360.98564736629 * (jd - 2451545) +
    0.000387933 * T * T - T * T * T / 38710000

/-- Modelled from the spec: `AstroTime::mean_sidereal_greenwich`, the
Greenwich mean sidereal time as an angle in radians. -/
noncomputable def mean_sidereal_greenwich (t : AstroTime) : ℝ :=
  ((gmst_degrees t.julian_day : ℚ) : ℝ) * π / 180

/-- `local_mean_sidereal_time` (src/coords/mod.rs lines 225-229):
Greenwich mean sidereal time minus the stored (west-positive)
longitude. -/
noncomputable def local_mean_sidereal_time (gmt : AstroTime)
    (geo_location : GeoCoords) : ℝ :=
  mean_sidereal_greenwich gmt - geo_location.longitude

/-- `local_mean_hour_angle` (src/coords/mod.rs lines 234-241). -/
noncomputable def local_mean_hour_angle (gmt : AstroTime)
    (geo_location : GeoCoords) (equatorial_location : EquatorialCoords) : ℝ :=
  local_mean_sidereal_time gmt geo_location - equatorial_location.right_acension

/-- `right_acension_from_mean_hour_angle` (src/coords/mod.rs lines
246-252). -/
noncomputable def right_acension_from_mean_hour_angle (ha : ℝ)
    (geo_location : GeoCoords) (gmt : AstroTime) : ℝ :=
  local_mean_sidereal_time gmt geo_location - ha

/-- `map_to_branch` (src/angles.rs lines 1064-1076) over the reals, as
used by the `RadianAngle` mappers. -/
noncomputable def map_to_branch_R (val mn mx : ℝ) : ℝ :=
  let range := mx - mn
  if val < mn then
    let factor : ℤ := ⌊(val - mn) / range⌋
    val - factor * range
  else if val > mx then
    let factor : ℤ := ⌈(val - mx) / range⌉
    val - factor * range
  else
    val

/-- `RadianAngle::map_to_time_range` (src/angles.rs lines 82-84):
`map_to_branch(radians, 0.0, 2.0*PI)` with the exact real `2*pi` for
the f64 constant. -/
noncomputable def RadianAngle.map_to_time_range (radians : ℝ) : ℝ :=
  map_to_branch_R radians 0 (2 * π)

/-- `trans_equatorial_to_horizontal` (src/coords/mod.rs lines 296-320);
both branches of the `use_apparent` switch call
`local_mean_hour_angle` (the apparent variant is a TODO in the
source). -/
noncomputable def trans_equatorial_to_horizontal (eq : EquatorialCoords)
    (geo : GeoCoords) (gmt : AstroTime) (use_apparent : Bool) :
    HorizontalCoords :=
  let h := if use_apparent then local_mean_hour_angle gmt geo eq
           else local_mean_hour_angle gmt geo eq
  let phi := geo.latitude
  let delta := eq.declination
  let az := atan2 (Real.sin h)
    (Real.cos h * Real.sin phi - Real.tan delta * Real.cos phi)
  let alt := Real.arcsin
    (Real.sin phi * Real.sin delta + Real.cos phi * Real.cos delta * Real.cos h)
  { altitude := alt, azimuth := az, observer_loc := geo, valid_time := gmt }

/-- `trans_horizontal_to_equatorial` (src/coords/mod.rs lines 323-343);
both branches of the `get_apparent` switch call
`right_acension_from_mean_hour_angle` followed by
`map_to_time_range`. -/
noncomputable def trans_horizontal_to_equatorial (hzc : HorizontalCoords)
    (get_apparent : Bool) : EquatorialCoords :=
  let az := hzc.azimuth
  let phi := hzc.observer_loc.latitude
  let alt := hzc.altitude
  let h := atan2 (Real.sin az)
    (Real.cos az * Real.sin phi + Real.tan alt * Real.cos phi)
  let ra := if get_apparent then
      RadianAngle.map_to_time_range
        (right_acension_from_mean_hour_angle h hzc.observer_loc hzc.valid_time)
    else
      RadianAngle.map_to_time_range
        (right_acension_from_mean_hour_angle h hzc.observer_loc hzc.valid_time)
  let delta := Real.arcsin
    (Real.sin phi * Real.sin alt - Real.cos phi * Real.cos alt * Real.cos az)
  { declination := delta, right_acension := ra, epoch := hzc.valid_time }

/-- `RadianAngle::from(DMSAngle::new(0, 0, s))` for an arcsecond payload
`s` expressed exactly: `s/3600` degrees converted to radians
(src/angles.rs: `DMSAngle::new` leaves `(0, 0, s)` unchanged and the
degree value is `0 + 0/60 + s/3600`). -/
noncomputable def arcsec_angle (s : ℚ) : ℝ := ((s : ℝ) / 3600) * Real.pi / 180

/-- `precess_coords` (src/coords/precession.rs lines 50-81): the Meeus
three-angle rotation taking coordinates from their own equinox to
`to_epoch`.  `T` and `t` are computed by `precess_T` / `precess_small_t`
from the raw `julian_day_number` values of the two epochs. -/
noncomputable def precess_coords (coords : EquatorialCoords)
    (to_epoch : AstroTime) : EquatorialCoords :=
  let jd0 := coords.epoch.julian_day_number
  let T := precess_T jd0
  let t := precess_small_t jd0 to_epoch.julian_day_number
  let zeta := arcsec_angle (precess_zeta T t)
  let z := arcsec_angle (precess_z T t)
  let theta := arcsec_angle (precess_theta T t)
  let dec0 := coords.declination
  let ra0 := coords.right_acension
  let A := Real.cos dec0 * Real.sin (ra0 + zeta)
  let B := Real.cos theta * Real.cos dec0 * Real.cos (ra0 + zeta) -
    Real.sin theta * Real.sin dec0
  let C := Real.sin theta * Real.cos dec0 * Real.cos (ra0 + zeta) +
    Real.cos theta * Real.sin dec0
  { declination := Real.arcsin C,
    right_acension := atan2 A B + z,
    epoch := to_epoch }

/-- The local mean hour angle of the C9 regression vector, in degrees,
as an exact rational: Greenwich mean sidereal time at
JD(1987-04-10 19:21:00 UT) plus the (negative, east-positive) longitude
of the observer minus the right ascension, all in degrees. -/
def c9_hour_angle_degrees : ℚ :=
  gmst_degrees (gregorian_jd 1987 4 10 19 21 0) +
    (-(77 + 3/60 + 56/3600)) - (23 + 9/60 + 168746/10000/3600) * 15

end AstroCalc

namespace AstroCalc

/-! ## Theorems -/

section ConcreteEvaluation

/- The Batteries rational-number operations are `@[irreducible]`, which
blocks `decide` evaluation of the exact-rational embedding on concrete
inputs; the kernel itself reduces them fine, so they are made
semireducible while deciding concrete instances. -/
attribute [local semireducible] Rat.mul Rat.inv Rat.add Rat.sub Rat.ofScientific

/-- **C1** (counter-evidence, the claim is a `code_bug`): the spec says
latitude-range mapping must fail whenever the reduced value has absolute
value greater than 90°, uniformly in all four representations.  The
`DegreeAngle` implementation compares against `-90.02` instead of `-90`
(an evident typo: the radian, DMS and HMS implementations all use
`-π/2`, and the trait documentation says `[-90, 90]`), so the
out-of-range input `-90.01` is accepted and returned unchanged. -/
theorem degree_latitude_range_accepts_out_of_range :
    (90 : ℚ) < |(-9001/100 : ℚ)| ∧
    DegreeAngle.map_to_latitude_range (-9001/100) = .ok (-9001/100) := by
  exact ⟨by decide, by decide⟩

/-- **C3** (counterexample): construction from NaN does *not* fail —
`RadianAngle::new` has no error path and simply stores the payload
(the library's own unit tests assert `RadianAngle::new(f64::NAN)`
succeeds and `is_nan()` detects it), and `DMSAngle::new` resolves a
mixed-sign minutes component by sign propagation instead of returning
an error (again asserted by the library's own tests). -/
theorem angle_construction_from_nan_succeeds :
    RadianAngleF.new .nan = { radians := .nan } ∧
    (RadianAngleF.new .nan).is_nan = true ∧
    DMSAngleF.new 222 (-22) (.finite (2222/100)) =
      { degrees := 222, minutes := 22, seconds := .finite (2222/100) } := by
  refine ⟨rfl, rfl, by decide⟩

/-- **C3** (amended): no angle constructor can fail.  `RadianAngle::new`
stores any payload, NaN and infinite included, with the special values
still detectable afterwards; `DMSAngle::new` accepts every component
combination, keeps the degrees component and the magnitudes of the
minutes and seconds components, and only normalizes signs. -/
theorem angle_constructors_are_total :
    (∀ r : F64, (RadianAngleF.new r).radians = r ∧
      (RadianAngleF.new r).is_nan = r.is_nan ∧
      (RadianAngleF.new r).radians.is_infinite = r.is_infinite) ∧
    (∀ (d m : ℤ) (s : ℚ),
      (DMSAngleF.new d m (.finite s)).degrees = d ∧
      ((DMSAngleF.new d m (.finite s)).minutes = m ∨
        (DMSAngleF.new d m (.finite s)).minutes = |m| ∨
        (DMSAngleF.new d m (.finite s)).minutes = -|m|) ∧
      ∃ q : ℚ, (DMSAngleF.new d m (.finite s)).seconds = .finite q ∧
        |q| = |s|) := by
  constructor
  · intro r
    exact ⟨rfl, rfl, rfl⟩
  · intro d m s
    unfold DMSAngleF.new i32_neg i32_abs
    split_ifs <;> simp [F64.abs, F64.neg, abs_abs]

/-- **C4** (counter-evidence, the claim is a `code_bug`): `map_to_branch`
returns a value strictly greater than `max` unchanged but leaves a value
*equal* to `max` (resp. to `min`) where it is, so the time-range mapping
of exactly 360° is 360° (not 0°, outside `[0°, 360°)`), and the
longitude-range mapping of exactly −180° is −180° (outside
`(−180°, 180°]`), contradicting both the spec and the trait's own
documentation of the ranges. -/
theorem map_to_time_range_boundary_bug :
    DegreeAngle.map_to_time_range 360 = 360 ∧
    ¬ DegreeAngle.map_to_time_range 360 < 360 ∧
    DegreeAngle.map_to_longitude_range (-180) = -180 ∧
    ¬ (-180 : ℚ) < DegreeAngle.map_to_longitude_range (-180) := by
  refine ⟨by decide, by decide, by decide, by decide⟩

/-- **C10**: at the Julian Day for 2000-01-01 23:59:59.7 UT (a
non-negative Julian Day), `to_gregorian_utc` returns a seconds component
of 60 — seconds are rounded with `floor(x·86400 + 0.5)` and the result
is not carried into the minutes — so the returned time-of-day violates
the very ranges `is_valid_time` enforces. -/
theorem to_gregorian_utc_second_sixty :
    (0 : ℚ) ≤ 2451544.5 + 863997/864000 ∧
    to_gregorian_utc (2451544.5 + 863997/864000) = (2000, 1, 1, 23, 59, 60) ∧
    is_valid_time 23 59 60 = false := by
  refine ⟨by decide, by decide, by decide⟩

end ConcreteEvaluation

lemma i32_neg_abs_nonpos (m : ℤ) : i32_neg (i32_abs m) ≤ 0 := by
  have h0 := abs_nonneg m
  unfold i32_neg i32_abs
  split_ifs <;> omega

section WrapEvaluation

attribute [local semireducible] Rat.mul Rat.inv Rat.add Rat.sub Rat.ofScientific

/-- **C8** (counterexample): in release builds `i32::abs` wraps at
`i32::MIN`, so `DMSAngle::new(1, i32::MIN, 1.0)` (and the `HMSAngle`
analogue) keeps the negative minutes component `i32::MIN` under a
positive degrees/hours component, violating the sign invariant the
claim asserts for arbitrary component inputs (debug builds panic on
the overflow instead of producing a value). -/
theorem dms_hms_sign_invariant_wrap_counterexample :
    (DMSAngleF.new 1 (-2147483648) (.finite 1)).degrees = 1 ∧
    (DMSAngleF.new 1 (-2147483648) (.finite 1)).minutes = -2147483648 ∧
    ¬ signInvariantDMS (DMSAngleF.new 1 (-2147483648) (.finite 1)) ∧
    ¬ signInvariantHMS (HMSAngleF.new 1 (-2147483648) (.finite 1)) := by
  refine ⟨by decide, by decide, ?_, ?_⟩
  · intro hinv
    unfold signInvariantDMS signInvariant DMSAngleF.new i32_abs at hinv
    norm_num [F64.abs, F64.sgnQ] at hinv
  · intro hinv
    unfold signInvariantHMS signInvariant HMSAngleF.new i32_abs at hinv
    norm_num [F64.abs, F64.sgnQ] at hinv

end WrapEvaluation

/-- **C8** (amended): every `DMSAngle` and `HMSAngle` produced by the
public constructors satisfies the sign invariant — all non-zero
components carry the sign of the most significant non-zero component —
for every component combination except the release-build `i32::abs`
wrap-around case: a positive degrees/hours component together with
minutes exactly `i32::MIN` (where debug builds panic and release
builds break the invariant). -/
theorem dms_hms_new_sign_invariant :
    (∀ (d m : ℤ) (s : F64), (0 < d → m ≠ -2147483648) →
      signInvariantDMS (DMSAngleF.new d m s)) ∧
    (∀ (h m : ℤ) (s : F64), (0 < h → m ≠ -2147483648) →
      signInvariantHMS (HMSAngleF.new h m s)) := by
  have habs : ∀ t : F64, 0 ≤ t.abs.sgnQ := by
    intro t; cases t <;> simp [F64.abs, F64.sgnQ, abs_nonneg]
  have hneg : ∀ t : F64, t.abs.neg.sgnQ ≤ 0 := by
    intro t
    cases t <;> simp [F64.abs, F64.neg, F64.sgnQ, neg_nonpos, abs_nonneg]
  constructor
  · intro d m s hg
    unfold DMSAngleF.new
    rcases lt_trichotomy d 0 with hd | hd | hd
    · rw [if_pos hd]
      simp [signInvariantDMS, signInvariant, hd, hneg, i32_neg_abs_nonpos,
        asymm hd]
    · subst hd
      rw [if_neg (lt_irrefl 0), if_neg (lt_irrefl 0)]
      rcases lt_trichotomy m 0 with hm | hm | hm
      · rw [if_pos hm]
        simp [signInvariantDMS, signInvariant, hm, asymm hm, hneg]
      · subst hm
        rw [if_neg (lt_irrefl 0), if_neg (lt_irrefl 0)]
        simp [signInvariantDMS, signInvariant]
      · rw [if_neg (asymm hm), if_pos hm]
        simp [signInvariantDMS, signInvariant, hm, asymm hm, habs]
    · rw [if_neg (asymm hd), if_pos hd]
      rw [show i32_abs m = |m| by unfold i32_abs; rw [if_neg (hg hd)]]
      simp [signInvariantDMS, signInvariant, hd, asymm hd, habs, abs_nonneg]
  · intro h m s hg
    unfold HMSAngleF.new
    rcases lt_trichotomy h 0 with hd | hd | hd
    · rw [if_pos hd]
      simp [signInvariantHMS, signInvariant, hd, hneg, i32_neg_abs_nonpos,
        asymm hd]
    · subst hd
      rw [if_neg (lt_irrefl 0), if_neg (lt_irrefl 0)]
      rcases lt_trichotomy m 0 with hm | hm | hm
      · rw [if_pos hm]
        simp [signInvariantHMS, signInvariant, hm, asymm hm, hneg]
      · subst hm
        rw [if_neg (lt_irrefl 0), if_neg (lt_irrefl 0)]
        simp [signInvariantHMS, signInvariant]
      · rw [if_neg (asymm hm), if_pos hm]
        simp [signInvariantHMS, signInvariant, hm, asymm hm, habs]
    · rw [if_neg (asymm hd), if_pos hd]
      rw [show i32_abs m = |m| by unfold i32_abs; rw [if_neg (hg hd)]]
      simp [signInvariantHMS, signInvariant, hd, asymm hd, habs, abs_nonneg]

/-- Closed instantiation of the sign invariant on both sides of zero. -/
theorem dms_hms_new_sign_invariant_witness :
    ((0 < (2 : ℤ) → (-3 : ℤ) ≠ -2147483648) ∧
      signInvariantDMS (DMSAngleF.new 2 (-3) (.finite (-5)))) ∧
    ((0 < (-2 : ℤ) → (3 : ℤ) ≠ -2147483648) ∧
      signInvariantHMS (HMSAngleF.new (-2) 3 (.finite 5))) :=
  ⟨⟨by decide, dms_hms_new_sign_invariant.1 2 (-3) (.finite (-5)) (by decide)⟩,
    ⟨by decide, dms_hms_new_sign_invariant.2 (-2) 3 (.finite 5) (by decide)⟩⟩

/-- **C6**: `Builder::from_gregorian_utc(..).build()` realizes exactly
the spec's error contract: `Ok` precisely on a valid Gregorian date, a
valid time-of-day and a non-negative resulting Julian Day; otherwise
`InvalidGregorianDate`, `InvalidTime` or a `DateUnderflow` range error
as appropriate (and the embedding is a total function — no panic). -/
theorem from_gregorian_utc_error_contract :
    ∀ year month day hour minute second : ℤ,
      from_gregorian_utc year month day hour minute second =
        from_gregorian_utc_spec year month day hour minute second := by
  intro y m d h mi s
  unfold from_gregorian_utc from_gregorian_utc_spec
  cases hA : is_valid_gregorian y m d <;>
    cases hB : is_valid_time h mi s <;>
      simp [hA, hB]
  rcases le_or_lt 0 (gregorian_jd y m d h mi s) with hj | hj
  · simp [hj, not_lt.2 hj, ge_iff_le]
  · simp [not_le.2 hj, hj]

/-! ### Helper lemmas: exact evaluation of the `f64` floors as integer
division, and the day-fraction/`to_hms` inverse pair -/

/-- Floor of an integer quotient over `ℚ` is integer (Euclidean)
division. -/
theorem floor_q (a b : ℤ) (hb : 0 < b) : ⌊(a:ℚ)/(b:ℚ)⌋ = a / b := by
  lift b to ℕ using hb.le with n
  have h : ((n : ℤ) : ℚ) = (n : ℚ) := by push_cast; ring
  rw [h, Rat.floor_intCast_div_natCast]

/-- The `365.25 * (year + 4716)` floor of `from_gregorian_utc` as integer
division. -/
theorem floor_36525 (Y : ℤ) : ⌊(365.25:ℚ) * ((Y:ℚ) + 4716)⌋ = (1461*(Y + 4716)) / 4 := by
  rw [show (365.25:ℚ) * ((Y:ℚ) + 4716) = ((1461*(Y+4716) : ℤ):ℚ)/((4:ℤ):ℚ) by
    push_cast; ring_nf]
  exact floor_q _ _ (by norm_num)

/-- The `30.6001 * (month + 1)` floor of `from_gregorian_utc` as integer
division. -/
theorem floor_30_6001 (M : ℤ) : ⌊(30.6001:ℚ) * ((M:ℚ) + 1)⌋ = (306001*(M + 1)) / 10000 := by
  rw [show (30.6001:ℚ) * ((M:ℚ) + 1) = ((306001*(M+1) : ℤ):ℚ)/((10000:ℤ):ℚ) by
    push_cast; ring_nf]
  exact floor_q _ _ (by norm_num)

/-- The century floor `A` of `from_gregorian_utc` as integer division. -/
theorem floor_div100 (X : ℤ) : ⌊(X:ℚ) / 100⌋ = X / 100 := by
  rw [show (X:ℚ)/100 = ((X:ℤ):ℚ)/((100:ℤ):ℚ) by push_cast; ring]
  exact floor_q _ _ (by norm_num)

/-- A quarter floor as integer division. -/
theorem floor_div4 (X : ℤ) : ⌊(X:ℚ) / 4⌋ = X / 4 := by
  rw [show (X:ℚ)/4 = ((X:ℤ):ℚ)/((4:ℤ):ℚ) by push_cast; ring]
  exact floor_q _ _ (by norm_num)

/-- The `alpha` floor of `to_gregorian_utc` as integer division. -/
theorem floor_alpha (X : ℤ) :
    ⌊((X:ℚ) - 1867216.25) / 36524.25⌋ = (4*X - 7468865) / 146097 := by
  rw [show ((X:ℚ) - 1867216.25) / 36524.25 = ((4*X - 7468865 : ℤ):ℚ)/((146097:ℤ):ℚ) by
    push_cast; ring_nf]
  exact floor_q _ _ (by norm_num)

/-- The `c` floor of `to_gregorian_utc` as integer division. -/
theorem floor_c (X : ℤ) :
    ⌊(((X:ℤ):ℚ) - 122.1) / 365.25⌋ = (20*X - 2442) / 7305 := by
  rw [show (((X:ℤ):ℚ) - 122.1) / 365.25 = ((20*X - 2442 : ℤ):ℚ)/((7305:ℤ):ℚ) by
    push_cast; ring_nf]
  exact floor_q _ _ (by norm_num)

/-- The `d` floor of `to_gregorian_utc` as integer division. -/
theorem floor_dd (X : ℤ) : ⌊(365.25:ℚ) * (X:ℚ)⌋ = (1461*X) / 4 := by
  rw [show (365.25:ℚ) * (X:ℚ) = ((1461*X : ℤ):ℚ)/((4:ℤ):ℚ) by push_cast; ring_nf]
  exact floor_q _ _ (by norm_num)

/-- The `e` floor of `to_gregorian_utc` as integer division. -/
theorem floor_e (X : ℤ) : ⌊((X:ℤ):ℚ) / 30.6001⌋ = (10000*X) / 306001 := by
  rw [show ((X:ℤ):ℚ) / 30.6001 = ((10000*X : ℤ):ℚ)/((306001:ℤ):ℚ) by push_cast; ring_nf]
  exact floor_q _ _ (by norm_num)

/-- The `30.6001 * e` floor of `to_gregorian_utc` as integer division. -/
theorem floor_g (X : ℤ) : ⌊(30.6001:ℚ) * (X:ℚ)⌋ = (306001*X) / 10000 := by
  rw [show (30.6001:ℚ) * (X:ℚ) = ((306001*X : ℤ):ℚ)/((10000:ℤ):ℚ) by push_cast; ring_nf]
  exact floor_q _ _ (by norm_num)

/-- `day_fraction` as a single integer quotient. -/
theorem day_fraction_form (h mi s : ℤ) :
    day_fraction h mi s = ((3600*h + 60*mi + s : ℤ):ℚ)/((86400:ℤ):ℚ) := by
  unfold day_fraction; push_cast; ring

/-- A valid time of day has a day fraction in `[0, 1)`. -/
theorem day_fraction_bounds (h mi s : ℤ) (h0 : 0 ≤ h) (h1 : h ≤ 23)
    (m0 : 0 ≤ mi) (m1 : mi ≤ 59) (s0 : 0 ≤ s) (s1 : s ≤ 59) :
    0 ≤ day_fraction h mi s ∧ day_fraction h mi s < 1 := by
  rw [day_fraction_form]
  constructor
  · apply div_nonneg
    · exact_mod_cast (by omega : (0:ℤ) ≤ 3600*h + 60*mi + s)
    · norm_num
  · rw [div_lt_one (by norm_num)]
    exact_mod_cast (by omega : (3600*h + 60*mi + s : ℤ) < 86400)

/-- `to_hms` exactly inverts `day_fraction` on a valid time of day. -/
theorem to_hms_day_fraction (h mi s : ℤ) (h0 : 0 ≤ h) (h1 : h ≤ 23)
    (m0 : 0 ≤ mi) (m1 : mi ≤ 59) (s0 : 0 ≤ s) (s1 : s ≤ 59) :
    to_hms (day_fraction h mi s) = (h, mi, s) := by
  have hdf : day_fraction h mi s = ((3600*h + 60*mi + s : ℤ):ℚ)/((86400:ℤ):ℚ) :=
    day_fraction_form h mi s
  unfold to_hms
  rw [hdf]
  dsimp only
  have e0 : ⌊((3600*h + 60*mi + s : ℤ):ℚ)/((86400:ℤ):ℚ)⌋ = 0 := by
    rw [floor_q _ _ (by norm_num)]; omega
  rw [e0]
  have r0 : ((3600*h + 60*mi + s : ℤ):ℚ)/((86400:ℤ):ℚ) - ((0:ℤ):ℚ) =
      ((3600*h + 60*mi + s : ℤ):ℚ)/((86400:ℤ):ℚ) := by push_cast; ring
  rw [r0]
  have e1 : ⌊((3600*h + 60*mi + s : ℤ):ℚ)/((86400:ℤ):ℚ) * 24⌋ = h := by
    rw [show ((3600*h + 60*mi + s : ℤ):ℚ)/((86400:ℤ):ℚ) * 24 =
        ((3600*h + 60*mi + s : ℤ):ℚ)/((3600:ℤ):ℚ) by push_cast; ring]
    rw [floor_q _ _ (by norm_num)]; omega
  rw [e1]
  have r1 : ((3600*h + 60*mi + s : ℤ):ℚ)/((86400:ℤ):ℚ) - (h:ℚ)/24 =
      ((60*mi + s : ℤ):ℚ)/((86400:ℤ):ℚ) := by push_cast; ring
  rw [r1]
  have e2 : ⌊((60*mi + s : ℤ):ℚ)/((86400:ℤ):ℚ) * 1440⌋ = mi := by
    rw [show ((60*mi + s : ℤ):ℚ)/((86400:ℤ):ℚ) * 1440 =
        ((60*mi + s : ℤ):ℚ)/((60:ℤ):ℚ) by push_cast; ring]
    rw [floor_q _ _ (by norm_num)]; omega
  rw [e2]
  have r2 : ((60*mi + s : ℤ):ℚ)/((86400:ℤ):ℚ) - (mi:ℚ)/1440 =
      ((s : ℤ):ℚ)/((86400:ℤ):ℚ) := by push_cast; ring
  rw [r2]
  have e3 : ⌊((s : ℤ):ℚ)/((86400:ℤ):ℚ) * 86400 + 0.5⌋ = s := by
    rw [show ((s : ℤ):ℚ)/((86400:ℤ):ℚ) * 86400 + 0.5 =
        ((2*s + 1 : ℤ):ℚ)/((2:ℤ):ℚ) by push_cast; ring_nf]
    rw [floor_q _ _ (by norm_num)]; omega
  rw [e3]

/-- `is_gregorian_leap_year` in arithmetic form. -/
theorem leap_iff (y : ℤ) :
    is_gregorian_leap_year y = true ↔ ((y % 4 = 0 ∧ ¬ y % 100 = 0) ∨ y % 400 = 0) := by
  unfold is_gregorian_leap_year
  split_ifs with a b c <;> simp_all <;> omega

/-- The sandwich bounds of a Euclidean division by a positive divisor. -/
theorem ediv_bounds (a b q : ℤ) (hb : 0 < b) (h : a / b = q) :
    b*q ≤ a ∧ a < b*q + b := by
  subst h
  have h1 := Int.ediv_add_emod a b
  have h2 := Int.emod_nonneg a (by omega : b ≠ 0)
  have h3 := Int.emod_lt_of_pos a hb
  constructor <;> linarith

section OverflowEvaluation

attribute [local semireducible] Rat.mul Rat.inv Rat.add Rat.sub Rat.ofScientific

/-- **C5** (counterexample): the year arithmetic of
`Builder::from_gregorian_utc` is `i32`.  For the valid calendar date
2147480000-07-01 — whose mathematical Julian Day (`gregorian_jd_exact`)
is positive — `year + 4716` overflows, so in a release build the
computed Julian Day is hugely negative and construction fails with a
`DateUnderflow` error (debug builds panic); no round trip occurs,
although the claim asserts one for every valid date with non-negative
Julian Day. -/
theorem gregorian_year_overflow_counterexample :
    is_valid_gregorian 2147480000 7 1 = true ∧
    0 ≤ gregorian_jd_exact 2147480000 7 1 0 0 0 ∧
    gregorian_jd 2147480000 7 1 0 0 0 < 0 ∧
    from_gregorian_utc 2147480000 7 1 0 0 0 =
      .error (.RangeError (.DateUnderflow (gregorian_jd 2147480000 7 1 0 0 0) 0)) := by
  refine ⟨by decide, by decide, by decide, by decide⟩

end OverflowEvaluation

set_option maxHeartbeats 4000000 in
/-- **C5** (amended): for every valid Gregorian calendar date
(astronomical year numbering, leap days and century rules included)
with a year in the overflow-free `i32` range
`-2147483648 < y ≤ 2147478931` (so that neither `year - 1` nor
`year + 4716` wraps) and valid time of day whose Julian Day is
non-negative, `to_gregorian_utc` applied to the Julian Day built by
`Builder::from_gregorian_utc` returns exactly the original
`(year, month, day, hour, minute, second)` tuple. -/
theorem gregorian_round_trip (y m d h mi s : ℤ)
    (hvd : is_valid_gregorian y m d = true)
    (hvt : is_valid_time h mi s = true)
    (hjd : 0 ≤ gregorian_jd y m d h mi s)
    (hylo : -2147483648 < y) (hyhi : y ≤ 2147478931) :
    to_gregorian_utc (gregorian_jd y m d h mi s) = (y, m, d, h, mi, s) := by
  -- unpack validity of the date
  have hval : 1 ≤ m ∧ m ≤ 12 ∧ 1 ≤ d ∧ d ≤ days_per_month_gregorian m y := by
    unfold is_valid_gregorian at hvd
    split_ifs at hvd with hc
    push_neg at hc
    exact hc
  obtain ⟨hm1, hm2, hd1, hd2⟩ := hval
  -- month-length facts in arithmetic form
  have hdpm : d ≤ 31 ∧ ((m = 4 ∨ m = 6 ∨ m = 9 ∨ m = 11) → d ≤ 30) ∧
      (m = 2 → d ≤ 29) ∧
      (m = 2 → ¬((y % 4 = 0 ∧ ¬ y % 100 = 0) ∨ y % 400 = 0) → d ≤ 28) := by
    unfold days_per_month_gregorian at hd2
    split_ifs at hd2 with c1 c2 c3 c4
    · exact ⟨hd2, by omega, by omega, by omega⟩
    · exact ⟨by omega, fun _ => hd2, by omega, by omega⟩
    · rw [leap_iff] at c4
      exact ⟨by omega, by omega, fun _ => hd2, fun _ hnl => absurd c4 hnl⟩
    · rw [leap_iff] at c4
      exact ⟨by omega, by omega, by omega, fun _ _ => hd2⟩
    · omega
  obtain ⟨hb31, hb30, hb29, hb28⟩ := hdpm
  -- unpack validity of the time
  have htval : 0 ≤ h ∧ h ≤ 23 ∧ 0 ≤ mi ∧ mi ≤ 59 ∧ 0 ≤ s ∧ s ≤ 59 := by
    unfold is_valid_time at hvt
    split_ifs at hvt with c1 c2 c3
    push_neg at c1 c2 c3
    omega
  obtain ⟨th0, th1, tm0, tm1, ts0, ts1⟩ := htval
  obtain ⟨hdf0, hdf1⟩ := day_fraction_bounds h mi s th0 th1 tm0 tm1 ts0 ts1
  -- split the Julian Day into integer part + day fraction - 1/2
  have hsplit : gregorian_jd y m d h mi s =
      (((1461*((if m < 3 then y - 1 else y) + 4716)) / 4 +
        (306001*((if m < 3 then m + 12 else m) + 1)) / 10000 +
        d + 2 - (if m < 3 then y - 1 else y) / 100 +
        ((if m < 3 then y - 1 else y) / 100) / 4 - 1524 : ℤ) : ℚ) +
      day_fraction h mi s - 1/2 := by
    have hw1 : wrap_i32 (y - 1) = y - 1 := by
      unfold wrap_i32
      omega
    have hw2 : wrap_i32 ((if m < 3 then y - 1 else y) + 4716) =
        (if m < 3 then y - 1 else y) + 4716 := by
      unfold wrap_i32
      split_ifs <;> omega
    have hcast : (((if m < 3 then y - 1 else y) + 4716 : ℤ) : ℚ) =
        (((if m < 3 then y - 1 else y : ℤ) : ℚ) + 4716) := by
      push_cast
      ring
    unfold gregorian_jd
    dsimp only
    rw [hw1, hw2, hcast, floor_36525, floor_30_6001, floor_div100, floor_div4]
    push_cast
    ring
  rw [hsplit] at hjd ⊢
  set N : ℤ := (1461*((if m < 3 then y - 1 else y) + 4716)) / 4 +
      (306001*((if m < 3 then m + 12 else m) + 1)) / 10000 +
      d + 2 - (if m < 3 then y - 1 else y) / 100 +
      ((if m < 3 then y - 1 else y) / 100) / 4 - 1524 with hN
  -- N is non-negative
  have hNnn : 0 ≤ N := by
    have h1 : (-1 : ℚ) < (N : ℚ) := by linarith
    have h2 : (-1 : ℤ) < N := by exact_mod_cast h1
    omega
  -- evaluate the inversion
  unfold to_gregorian_utc
  dsimp only
  have hz : ⌊((N:ℚ) + day_fraction h mi s - 1/2) + 0.5⌋ = N := by
    rw [show ((N:ℚ) + day_fraction h mi s - 1/2) + 0.5 =
        day_fraction h mi s + (N:ℚ) by push_cast; ring_nf]
    rw [Int.floor_add_int]
    have : ⌊day_fraction h mi s⌋ = 0 :=
      Int.floor_eq_zero_iff.mpr ⟨hdf0, hdf1⟩
    omega
  rw [hz]
  have hf : ((N:ℚ) + day_fraction h mi s - 1/2) + 0.5 - ((N:ℤ):ℚ) =
      day_fraction h mi s := by push_cast; ring_nf
  rw [hf, to_hms_day_fraction h mi s th0 th1 tm0 tm1 ts0 ts1]
  rw [floor_alpha]
  obtain ⟨A, hA⟩ : ∃ q, (4*N - 7468865) / 146097 = q := ⟨_, rfl⟩
  rw [hA]
  obtain ⟨hA1, hA2⟩ := ediv_bounds _ _ _ (by norm_num) hA
  clear hA
  rw [floor_div4]
  obtain ⟨A4, hA4⟩ : ∃ q, A / 4 = q := ⟨_, rfl⟩
  rw [hA4]
  obtain ⟨hA41, hA42⟩ := ediv_bounds _ _ _ (by norm_num) hA4
  clear hA4
  have hbq : ((N:ℤ):ℚ) + 1 + ((A:ℤ):ℚ) - ((A4:ℤ):ℚ) + 1524 =
      ((N + 1 + A - A4 + 1524 : ℤ):ℚ) := by push_cast; ring
  rw [hbq]
  rw [floor_c]
  obtain ⟨C, hC⟩ : ∃ q, (20*(N + 1 + A - A4 + 1524) - 2442) / 7305 = q := ⟨_, rfl⟩
  rw [hC]
  obtain ⟨hC1, hC2⟩ := ediv_bounds _ _ _ (by norm_num) hC
  clear hC
  rw [floor_dd]
  obtain ⟨D, hD⟩ : ∃ q, (1461*C) / 4 = q := ⟨_, rfl⟩
  rw [hD]
  obtain ⟨hD1, hD2⟩ := ediv_bounds _ _ _ (by norm_num) hD
  clear hD
  have hbd : ((N + 1 + A - A4 + 1524 : ℤ):ℚ) - ((D:ℤ):ℚ) =
      ((N + 1 + A - A4 + 1524 - D : ℤ):ℚ) := by push_cast; ring
  rw [hbd]
  rw [floor_e]
  obtain ⟨E, hE⟩ : ∃ q, (10000*(N + 1 + A - A4 + 1524 - D)) / 306001 = q := ⟨_, rfl⟩
  rw [hE]
  obtain ⟨hE1, hE2⟩ := ediv_bounds _ _ _ (by norm_num) hE
  clear hE
  rw [floor_g]
  obtain ⟨G, hG⟩ : ∃ q, (306001*E) / 10000 = q := ⟨_, rfl⟩
  rw [hG]
  obtain ⟨hG1, hG2⟩ := ediv_bounds _ _ _ (by norm_num) hG
  clear hG
  have hdayq : ((N + 1 + A - A4 + 1524 - D : ℤ):ℚ) - ((G:ℤ):ℚ) =
      ((N + 1 + A - A4 + 1524 - D - G : ℤ):ℚ) := by push_cast; ring
  rw [hdayq, Int.floor_intCast]
  clear hsplit hz hf hbq hbd hdayq hdf0 hdf1 hjd hvd hvt hd2
  by_cases hm3 : m < 3
  · simp only [if_pos hm3] at hN
    clear_value N
    obtain ⟨F1, hF1⟩ : ∃ q, (1461*((y - 1) + 4716)) / 4 = q := ⟨_, rfl⟩
    rw [hF1] at hN
    obtain ⟨hF11, hF12⟩ := ediv_bounds _ _ _ (by norm_num) hF1
    clear hF1
    obtain ⟨F2, hF2⟩ : ∃ q, (306001*((m + 12) + 1)) / 10000 = q := ⟨_, rfl⟩
    rw [hF2] at hN
    obtain ⟨hF21, hF22⟩ := ediv_bounds _ _ _ (by norm_num) hF2
    clear hF2
    obtain ⟨Ap, hAp⟩ : ∃ q, (y - 1) / 100 = q := ⟨_, rfl⟩
    rw [hAp] at hN
    obtain ⟨hAp1, hAp2⟩ := ediv_bounds _ _ _ (by norm_num) hAp
    clear hAp
    obtain ⟨Ap4, hAp4⟩ : ∃ q, Ap / 4 = q := ⟨_, rfl⟩
    rw [hAp4] at hN
    obtain ⟨hAp41, hAp42⟩ := ediv_bounds _ _ _ (by norm_num) hAp4
    clear hAp4
    obtain ⟨Q, a2, b2, c2, hdec, ha2l, ha2u, hb2l, hb2u, hc2l, hc2u⟩ :
        ∃ Q a b c, y - 1 = 400*Q + 100*a + 4*b + c ∧
          0 ≤ a ∧ a ≤ 3 ∧ 0 ≤ b ∧ b ≤ 24 ∧ 0 ≤ c ∧ c ≤ 3 :=
      ⟨(y-1)/400, (y-1)%400/100, (y-1)%400%100/4, (y-1)%400%100%4,
        by omega, by omega, by omega, by omega, by omega, by omega, by omega⟩
    have hdFeb : m = 2 → d ≤ 28 ∨ (c2 = 3 ∧ (b2 ≠ 24 ∨ a2 = 3) ∧ d ≤ 29) := by
      intro hm2
      have h29 := hb29 hm2
      have h28 := hb28 hm2
      omega
    clear hb28 hb29 hb30 th0 th1 tm0 tm1 ts0 ts1 hNnn
    have hAv : A = Ap - 4 := by
      interval_cases a2 <;> interval_cases c2 <;> interval_cases m <;> omega
    have hA4v : A4 = Ap4 - 1 := by omega
    have hCv : C = y + 4715 := by
      interval_cases a2 <;> interval_cases c2 <;> omega
    have hBDv : N + 1 + A - A4 + 1524 - D = F2 + d := by
      interval_cases c2 <;> omega
    have hEv : E = m + 13 := by interval_cases m <;> omega
    have hdayv : N + 1 + A - A4 + 1524 - D - G = d := by omega
    have hpos : ((E:ℤ):ℚ) > 13 := by exact_mod_cast (by omega : (13:ℤ) < E)
    rw [if_pos hpos]
    have hyneg : ¬ (E - 13 > 2) := by omega
    rw [if_neg hyneg]
    simp only [Prod.mk.injEq, eq_self_iff_true, and_true]
    exact ⟨by omega, by omega, by omega⟩
  · simp only [if_neg hm3] at hN
    clear_value N
    obtain ⟨F1, hF1⟩ : ∃ q, (1461*(y + 4716)) / 4 = q := ⟨_, rfl⟩
    rw [hF1] at hN
    obtain ⟨hF11, hF12⟩ := ediv_bounds _ _ _ (by norm_num) hF1
    clear hF1
    obtain ⟨F2, hF2⟩ : ∃ q, (306001*(m + 1)) / 10000 = q := ⟨_, rfl⟩
    rw [hF2] at hN
    obtain ⟨hF21, hF22⟩ := ediv_bounds _ _ _ (by norm_num) hF2
    clear hF2
    obtain ⟨Ap, hAp⟩ : ∃ q, y / 100 = q := ⟨_, rfl⟩
    rw [hAp] at hN
    obtain ⟨hAp1, hAp2⟩ := ediv_bounds _ _ _ (by norm_num) hAp
    clear hAp
    obtain ⟨Ap4, hAp4⟩ : ∃ q, Ap / 4 = q := ⟨_, rfl⟩
    rw [hAp4] at hN
    obtain ⟨hAp41, hAp42⟩ := ediv_bounds _ _ _ (by norm_num) hAp4
    clear hAp4
    obtain ⟨Q, a2, b2, c2, hdec, ha2l, ha2u, hb2l, hb2u, hc2l, hc2u⟩ :
        ∃ Q a b c, y = 400*Q + 100*a + 4*b + c ∧
          0 ≤ a ∧ a ≤ 3 ∧ 0 ≤ b ∧ b ≤ 24 ∧ 0 ≤ c ∧ c ≤ 3 :=
      ⟨y/400, y%400/100, y%400%100/4, y%400%100%4,
        by omega, by omega, by omega, by omega, by omega, by omega, by omega⟩
    clear hb28 hb29 th0 th1 tm0 tm1 ts0 ts1 hNnn
    have hAv : A = Ap - 4 := by
      interval_cases a2 <;> interval_cases c2 <;> interval_cases m <;> omega
    have hA4v : A4 = Ap4 - 1 := by omega
    have hCv : C = y + 4716 := by
      interval_cases a2 <;> interval_cases c2 <;> omega
    have hBDv : N + 1 + A - A4 + 1524 - D = F2 + d := by
      interval_cases c2 <;> omega
    have hEv : E = m + 1 := by interval_cases m <;> omega
    have hdayv : N + 1 + A - A4 + 1524 - D - G = d := by omega
    have hneg : ¬ (((E:ℤ):ℚ) > 13) := by
      exact_mod_cast (by omega : ¬ ((13:ℤ) < E))
    rw [if_neg hneg]
    have hypos : E - 1 > 2 := by omega
    rw [if_pos hypos]
    simp only [Prod.mk.injEq, eq_self_iff_true, and_true]
    exact ⟨by omega, by omega, by omega⟩


section ConcreteWitnesses

attribute [local semireducible] Rat.mul Rat.inv Rat.add Rat.sub Rat.ofScientific

/-- Witness for the C5 round-trip theorem at the leap-century date
1600-02-29 23:59:59. -/
theorem gregorian_round_trip_witness :
    is_valid_gregorian 1600 2 29 = true ∧ is_valid_time 23 59 59 = true ∧
    0 ≤ gregorian_jd 1600 2 29 23 59 59 ∧
    (-2147483648 : ℤ) < 1600 ∧ (1600 : ℤ) ≤ 2147478931 ∧
    to_gregorian_utc (gregorian_jd 1600 2 29 23 59 59) =
      (1600, 2, 29, 23, 59, 59) :=
  ⟨by decide, by decide, by decide, by decide, by decide,
    gregorian_round_trip 1600 2 29 23 59 59 (by decide) (by decide) (by decide)
      (by decide) (by decide)⟩

end ConcreteWitnesses


/-! ## Delta-T theorems (C7) -/

lemma sorted_fst_adj (d : ℚ × ℚ) : ∀ (l : List (ℚ × ℚ)), sorted_fst l = true →
    ∀ j, j + 1 < l.length → (l.getD j d).1 < (l.getD (j + 1) d).1
  | [] => by intro _ j hj; simp at hj
  | [a] => by intro _ j hj; simp at hj
  | a :: b :: rest => by
    intro hs j hj
    have hs' : a.1 < b.1 ∧ sorted_fst (b :: rest) = true := by
      have h := hs
      simp only [sorted_fst, Bool.and_eq_true, decide_eq_true_eq] at h
      exact h
    cases j with
    | zero => simpa [List.getD_cons_zero, List.getD_cons_succ] using hs'.1
    | succ j =>
      have h := sorted_fst_adj d (b :: rest) hs'.2 j (by
        simpa [List.length_cons] using hj)
      simpa [List.getD_cons_succ] using h

section DeltaTNumeric

attribute [local semireducible] Rat.mul Rat.inv Rat.add Rat.sub Rat.ofScientific

set_option maxRecDepth 16000

lemma time_delta_sorted : sorted_fst TIME_DELTA = true := by decide

end DeltaTNumeric

lemma time_delta_adj (j : ℕ) (hj : j + 1 < TIME_DELTA.length) :
    (TIME_DELTA.getD j (0, 0)).1 < (TIME_DELTA.getD (j + 1) (0, 0)).1 :=
  sorted_fst_adj (0, 0) TIME_DELTA time_delta_sorted j hj

lemma time_delta_mono (a b : ℕ) (hab : a ≤ b) (hb : b < TIME_DELTA.length) :
    (TIME_DELTA.getD a (0, 0)).1 ≤ (TIME_DELTA.getD b (0, 0)).1 := by
  induction b with
  | zero =>
    have ha : a = 0 := by omega
    subst ha
    exact le_refl _
  | succ b ih =>
    rcases Nat.eq_or_lt_of_le hab with h | h
    · subst h
      exact le_refl _
    · have h1 : a ≤ b := by omega
      have h2 : b < TIME_DELTA.length := by omega
      exact le_trans (ih h1 h2) (le_of_lt (time_delta_adj b hb))

lemma search_delta_idx_eq (jd : ℚ) (i : ℕ) : ∀ k, i ≤ k →
    (TIME_DELTA.getD i (0, 0)).1 < jd →
    (∀ j, i < j → j ≤ k → jd ≤ (TIME_DELTA.getD j (0, 0)).1) →
    search_delta_idx jd k = some i := by
  intro k
  induction k with
  | zero =>
    intro hik hi _
    have h0 : i = 0 := by omega
    subst h0
    simp only [search_delta_idx]
    rw [if_pos hi]
  | succ k ih =>
    intro hik hi hub
    by_cases hie : i = k + 1
    · subst hie
      simp only [search_delta_idx]
      rw [if_pos hi]
    · have hnot : ¬ (TIME_DELTA.getD (k + 1) (0, 0)).1 < jd :=
        not_lt.2 (hub (k + 1) (by omega) le_rfl)
      simp only [search_delta_idx]
      rw [if_neg hnot]
      exact ih (by omega) hi (fun j h1 h2 => hub j h1 (by omega))

/-- **C7** (amended): the delta-T offset added by `as_dt`.  Inside the
span of the date-sorted table, `get_delta_t` linearly interpolates
between the two bracketing table samples and divides by 86400.  Outside
the span it uses the fallback polynomials with boundary at the year
948, with the interval `delta_t_t jd = (jd - JD(2000-01-01 00:00 UT)) /
36524.25` (the code measures from midnight UT of 2000-01-01, not from
the J2000 epoch JD 2451545.0, and divides by 36524.25, not by the
Julian century 36525).  `as_dt` adds the offset to a UT time and
`as_utc` subtracts it from a DT time. -/
theorem delta_t_interpolation_and_conversion (jd dt : ℚ) (i : ℕ) :
    (i + 1 < TIME_DELTA.length →
      (TIME_DELTA.getD i (0, 0)).1 < jd →
      jd ≤ (TIME_DELTA.getD (i + 1) (0, 0)).1 →
      jd < (TIME_DELTA.getD (TIME_DELTA.length - 1) (0, 0)).1 →
      get_delta_t jd = some
        ((((TIME_DELTA.getD (i + 1) (0, 0)).2 - (TIME_DELTA.getD i (0, 0)).2) /
          ((TIME_DELTA.getD (i + 1) (0, 0)).1 - (TIME_DELTA.getD i (0, 0)).1) *
          (jd - (TIME_DELTA.getD i (0, 0)).1) + (TIME_DELTA.getD i (0, 0)).2) / 86400)) ∧
    (jd < (TIME_DELTA.getD 0 (0, 0)).1 ∨
        (TIME_DELTA.getD (TIME_DELTA.length - 1) (0, 0)).1 ≤ jd →
      get_delta_t jd = some (if jd < gregorian_jd 948 1 1 0 0 0 then
          (2177 + 497 * delta_t_t jd + 44.1 * delta_t_t jd * delta_t_t jd) / 86400
        else
          (102 + 102 * delta_t_t jd + 25.3 * delta_t_t jd * delta_t_t jd) / 86400)) ∧
    (get_delta_t jd = some dt →
      as_dt ⟨jd, TimeType.UT⟩ = some (from_julian_date_dt (jd + dt)) ∧
      as_utc ⟨jd, TimeType.DT⟩ = some (from_julian_date (jd - dt))) := by
  refine ⟨?_, ?_, ?_⟩
  · intro h1 h2 h3 h4
    have hfirst : (TIME_DELTA.getD 0 (0, 0)).1 ≤ (TIME_DELTA.getD i (0, 0)).1 :=
      time_delta_mono 0 i (by omega) (by omega)
    have hcond : (TIME_DELTA.getD 0 (0, 0)).1 ≤ jd ∧
        jd < (TIME_DELTA.getD (TIME_DELTA.length - 1) (0, 0)).1 :=
      ⟨le_of_lt (lt_of_le_of_lt hfirst h2), h4⟩
    have hsearch : search_delta_idx jd (TIME_DELTA.length - 2) = some i := by
      apply search_delta_idx_eq jd i (TIME_DELTA.length - 2) (by omega) h2
      intro j hji hjk
      exact le_trans h3 (time_delta_mono (i + 1) j (by omega) (by omega))
    unfold get_delta_t
    rw [if_pos hcond, hsearch]
  · intro h
    have hcond : ¬ ((TIME_DELTA.getD 0 (0, 0)).1 ≤ jd ∧
        jd < (TIME_DELTA.getD (TIME_DELTA.length - 1) (0, 0)).1) := by
      rcases h with h | h
      · exact fun hc => absurd hc.1 (not_le.2 h)
      · exact fun hc => absurd hc.2 (not_lt.2 h)
    unfold get_delta_t delta_t_t
    rw [if_neg hcond]
    by_cases h948 : jd < gregorian_jd 948 1 1 0 0 0
    · rw [if_pos h948, if_pos h948]
    · rw [if_neg h948, if_neg h948]
  · intro h
    constructor
    · show as_dt ⟨jd, TimeType.UT⟩ = _
      unfold as_dt
      rw [if_neg (by simp), h]
      rfl
    · unfold as_utc
      rw [if_neg (by simp), h]
      rfl

section DeltaTWitness

attribute [local semireducible] Rat.mul Rat.inv Rat.add Rat.sub Rat.ofScientific

set_option maxRecDepth 16000

/-- Closed instantiation of the delta-T contract: a Julian Day inside
the bracket between the last two table samples (2016-12-01 and
2017-01-01), and a Julian Day below the table span (with its `as_dt`
conversion). -/
theorem delta_t_interpolation_and_conversion_witness :
    (703 + 1 < TIME_DELTA.length ∧
      (TIME_DELTA.getD 703 (0, 0)).1 < 2457730 ∧
      (2457730 : ℚ) ≤ (TIME_DELTA.getD (703 + 1) (0, 0)).1) ∧
    get_delta_t 2457730 = some
        ((((TIME_DELTA.getD (703 + 1) (0, 0)).2 - (TIME_DELTA.getD 703 (0, 0)).2) /
          ((TIME_DELTA.getD (703 + 1) (0, 0)).1 - (TIME_DELTA.getD 703 (0, 0)).1) *
          (2457730 - (TIME_DELTA.getD 703 (0, 0)).1) + (TIME_DELTA.getD 703 (0, 0)).2) / 86400) ∧
    as_dt ⟨2300000, TimeType.UT⟩ = some (from_julian_date_dt (2300000 +
      (102 + 102 * delta_t_t 2300000 + 25.3 * delta_t_t 2300000 * delta_t_t 2300000) / 86400)) := by
  refine ⟨⟨by decide, by decide, by decide⟩, ?_, ?_⟩
  · exact (delta_t_interpolation_and_conversion 2457730 0 703).1
      (by decide) (by decide) (by decide) (by decide)
  · have h2 := (delta_t_interpolation_and_conversion 2300000 0 703).2.1 (Or.inl (by decide))
    have h2' : get_delta_t 2300000 = some
        ((102 + 102 * delta_t_t 2300000 + 25.3 * delta_t_t 2300000 * delta_t_t 2300000) / 86400) := by
      rw [h2, if_neg (by decide)]
    exact ((delta_t_interpolation_and_conversion 2300000
      ((102 + 102 * delta_t_t 2300000 + 25.3 * delta_t_t 2300000 * delta_t_t 2300000) / 86400)
      703).2.2 h2').1

/-- **C7** (counterexample): at Julian Day 0 the fallback polynomial is
used with `t = (0 - 2451544.5) / 36524.25` — days measured from
2000-01-01 00:00 UT divided by 36524.25 — and the result differs from
the value the claim's interval "centuries from J2000"
(`(0 - 2451545) / 36525`) would give. -/
theorem get_delta_t_century_formula_counterexample :
    get_delta_t 0 = some ((2177 + 497 * ((0 - 2451544.5) / 36524.25) +
        44.1 * ((0 - 2451544.5) / 36524.25) * ((0 - 2451544.5) / 36524.25)) / 86400) ∧
    get_delta_t 0 ≠ some ((2177 + 497 * ((0 - 2451545) / 36525) +
        44.1 * ((0 - 2451545) / 36525) * ((0 - 2451545) / 36525)) / 86400) := by
  constructor
  · decide
  · decide

end DeltaTWitness

/-! ## Precession theorems (C2) -/

section PrecessionEvaluation

attribute [local semireducible] Rat.mul Rat.inv Rat.add Rat.sub Rat.ofScientific

set_option maxRecDepth 16000

/-- **C2** (counterexample): converting the UT epoch JD 0 to Dynamical
Time with `as_dt` changes its Julian Day (by the delta-T offset
1501278104911/774397584000 days), and `precess_T` — the century
interval actually used by `precess_coords` — differs between the raw
and the converted Julian Day, as does the resulting `zeta` rotation
polynomial; so computing the intervals from raw rather than
DT-converted Julian Day numbers is an observable difference, and
`precess_coords` performs no such conversion. -/
theorem precess_century_intervals_not_dynamical :
    as_dt ⟨0, TimeType.UT⟩ =
      some (Except.ok ⟨1501278104911 / 774397584000, TimeType.DT⟩) ∧
    precess_T 0 ≠ precess_T (1501278104911 / 774397584000) ∧
    precess_zeta (precess_T 0) 1 ≠
      precess_zeta (precess_T (1501278104911 / 774397584000)) 1 := by
  refine ⟨by decide, by decide, by decide⟩

end PrecessionEvaluation

/-- **C2** (amended): `precess_coords` computes its century intervals
`T` and `t` from the raw `julian_day` fields of the source and target
epochs, converting neither to Dynamical Time: its output coordinates
are unchanged when the time-type tags of both epochs are replaced
arbitrarily, and the output epoch is the target epoch as given. -/
theorem precess_coords_uses_raw_julian_days (dec ra : ℝ) (jd0 jd1 : ℚ)
    (ty0 ty0' ty1 ty1' : TimeType) :
    precess_coords ⟨dec, ra, ⟨jd0, ty0⟩⟩ ⟨jd1, ty1⟩ =
      { declination := (precess_coords ⟨dec, ra, ⟨jd0, ty0'⟩⟩ ⟨jd1, ty1'⟩).declination,
        right_acension := (precess_coords ⟨dec, ra, ⟨jd0, ty0'⟩⟩ ⟨jd1, ty1'⟩).right_acension,
        epoch := ⟨jd1, ty1⟩ } := rfl

/-! ## Equatorial-horizontal round trip (C9) -/

open Real

/-! ### Round-trip lemmas -/

lemma map_to_time_range_add_int (α : ℝ) (k : ℤ) (h0 : 0 < α) (h2 : α < 2 * π) :
    RadianAngle.map_to_time_range (α + k * (2 * π)) = α := by
  have hπ : 0 < 2 * π := Real.two_pi_pos
  have hfloor : ⌊α / (2 * π)⌋ = 0 := by
    rw [Int.floor_eq_zero_iff]
    constructor
    · positivity
    · rw [div_lt_one hπ]; exact h2
  have hceil : ⌈α / (2 * π)⌉ = 1 := by
    rw [Int.ceil_eq_iff]
    constructor
    · push_cast
      simpa using div_pos h0 hπ
    · push_cast
      rw [div_le_one hπ]
      exact le_of_lt h2
  unfold RadianAngle.map_to_time_range map_to_branch_R
  by_cases hneg : α + k * (2 * π) < 0
  · rw [if_pos hneg]
    have harg : (α + k * (2 * π) - 0) / (2 * π - 0) = α / (2 * π) + (k : ℝ) := by
      field_simp
    rw [harg, Int.floor_add_int, hfloor]
    push_cast
    ring
  · rw [if_neg hneg]
    by_cases hbig : α + k * (2 * π) > 2 * π
    · rw [if_pos hbig]
      have harg : (α + k * (2 * π) - 2 * π) / (2 * π - 0) =
          α / (2 * π) + ((k - 1 : ℤ) : ℝ) := by
        push_cast
        field_simp
        ring
      rw [harg, Int.ceil_add_int, hceil]
      push_cast
      ring
    · rw [if_neg hbig]
      have hk : k = 0 := by
        push_neg at hneg hbig
        rcases lt_trichotomy k 0 with hk | hk | hk
        · exfalso
          have : (k : ℝ) ≤ -1 := by exact_mod_cast (by omega : k ≤ -1)
          nlinarith
        · exact hk
        · exfalso
          have : (1 : ℝ) ≤ (k : ℝ) := by exact_mod_cast hk
          nlinarith
      subst hk
      push_cast
      ring

lemma round_trip_core (φ δ H : ℝ) (hδl : -(π / 2) < δ) (hδr : δ < π / 2)
    (hH : Real.sin H ≠ 0) :
    Real.arcsin (Real.sin φ *
        Real.sin (Real.arcsin (Real.sin φ * Real.sin δ +
          Real.cos φ * Real.cos δ * Real.cos H)) -
      Real.cos φ *
        Real.cos (Real.arcsin (Real.sin φ * Real.sin δ +
          Real.cos φ * Real.cos δ * Real.cos H)) *
        Real.cos (atan2 (Real.sin H)
          (Real.cos H * Real.sin φ - Real.tan δ * Real.cos φ))) = δ ∧
    atan2 (Real.sin (atan2 (Real.sin H)
        (Real.cos H * Real.sin φ - Real.tan δ * Real.cos φ)))
      (Real.cos (atan2 (Real.sin H)
          (Real.cos H * Real.sin φ - Real.tan δ * Real.cos φ)) * Real.sin φ +
        Real.tan (Real.arcsin (Real.sin φ * Real.sin δ +
          Real.cos φ * Real.cos δ * Real.cos H)) * Real.cos φ) =
      toIocMod Real.two_pi_pos (-π) H := by
  have hcosδ : 0 < Real.cos δ := Real.cos_pos_of_mem_Ioo ⟨by linarith, hδr⟩
  set x : ℝ := Real.cos H * Real.sin φ * Real.cos δ - Real.sin δ * Real.cos φ with hx
  set y : ℝ := Real.sin H * Real.cos δ with hy
  set z : ℝ := Real.sin φ * Real.sin δ + Real.cos φ * Real.cos δ * Real.cos H with hz
  have h1 : Real.sin φ ^ 2 + Real.cos φ ^ 2 = 1 := Real.sin_sq_add_cos_sq φ
  have h2 : Real.sin δ ^ 2 + Real.cos δ ^ 2 = 1 := Real.sin_sq_add_cos_sq δ
  have h3 : Real.sin H ^ 2 + Real.cos H ^ 2 = 1 := Real.sin_sq_add_cos_sq H
  have hxyz : x ^ 2 + y ^ 2 + z ^ 2 = 1 := by
    rw [hx, hy, hz]
    linear_combination (Real.cos δ ^ 2 * Real.cos H ^ 2 + Real.sin δ ^ 2) * h1 +
      Real.cos δ ^ 2 * h3 + h2
  have hy0 : y ≠ 0 := mul_ne_zero hH (ne_of_gt hcosδ)
  have hxy_pos : 0 < x ^ 2 + y ^ 2 := by
    have hy2 : 0 < y ^ 2 := lt_of_le_of_ne (sq_nonneg y) (Ne.symm (pow_ne_zero 2 hy0))
    nlinarith [sq_nonneg x]
  have hz2 : z ^ 2 < 1 := by linarith
  have hzabs : |z| ≤ 1 := (sq_le_one_iff_abs_le_one z).1 (le_of_lt hz2)
  have hz_le : -1 ≤ z ∧ z ≤ 1 := abs_le.1 hzabs
  have haz : atan2 (Real.sin H) (Real.cos H * Real.sin φ - Real.tan δ * Real.cos φ) =
      Complex.arg ((x : ℂ) + (y : ℂ) * Complex.I) := by
    unfold atan2
    have hcne : Real.cos δ ≠ 0 := ne_of_gt hcosδ
    have hre : x = Real.cos δ * (Real.cos H * Real.sin φ - Real.tan δ * Real.cos φ) := by
      rw [hx, Real.tan_eq_sin_div_cos]
      field_simp
    have him : y = Real.cos δ * Real.sin H := by rw [hy]; ring
    have hmul : ((x : ℂ) + (y : ℂ) * Complex.I) = (Real.cos δ : ℂ) *
        (((Real.cos H * Real.sin φ - Real.tan δ * Real.cos φ : ℝ) : ℂ) +
          ((Real.sin H : ℝ) : ℂ) * Complex.I) := by
      rw [hre, him]
      push_cast
      ring
    rw [hmul, Complex.arg_real_mul _ hcosδ]
  have habs : Complex.abs ((x : ℂ) + (y : ℂ) * Complex.I) =
      Real.sqrt (x ^ 2 + y ^ 2) := by
    rw [Complex.abs_apply, Complex.normSq_apply]
    congr 1
    simp only [Complex.add_re, Complex.ofReal_re, Complex.mul_re, Complex.I_re,
      Complex.ofReal_im, Complex.I_im, Complex.add_im, Complex.mul_im]
    ring
  have hne : ((x : ℂ) + (y : ℂ) * Complex.I) ≠ 0 := by
    intro hzero
    apply hy0
    have him := congrArg Complex.im hzero
    simpa using him
  have hcosaz : Real.cos (atan2 (Real.sin H)
      (Real.cos H * Real.sin φ - Real.tan δ * Real.cos φ)) =
      x / Real.sqrt (x ^ 2 + y ^ 2) := by
    rw [haz, Complex.cos_arg hne, habs]
    simp
  have hsinaz : Real.sin (atan2 (Real.sin H)
      (Real.cos H * Real.sin φ - Real.tan δ * Real.cos φ)) =
      y / Real.sqrt (x ^ 2 + y ^ 2) := by
    rw [haz, Complex.sin_arg, habs]
    simp
  have hsinalt : Real.sin (Real.arcsin z) = z := Real.sin_arcsin hz_le.1 hz_le.2
  have hcosalt : Real.cos (Real.arcsin z) = Real.sqrt (x ^ 2 + y ^ 2) := by
    rw [Real.cos_arcsin]
    congr 1
    linarith
  have hsqrt_pos : 0 < Real.sqrt (x ^ 2 + y ^ 2) := Real.sqrt_pos.2 hxy_pos
  have hsqrt_ne : Real.sqrt (x ^ 2 + y ^ 2) ≠ 0 := ne_of_gt hsqrt_pos
  constructor
  · -- declination recovery
    have hkey : Real.sin φ * Real.sin (Real.arcsin z) -
        Real.cos φ * Real.cos (Real.arcsin z) *
          Real.cos (atan2 (Real.sin H)
            (Real.cos H * Real.sin φ - Real.tan δ * Real.cos φ)) = Real.sin δ := by
      rw [hsinalt, hcosalt, hcosaz]
      have hc : Real.cos φ * Real.sqrt (x ^ 2 + y ^ 2) *
          (x / Real.sqrt (x ^ 2 + y ^ 2)) = Real.cos φ * x := by
        field_simp
        ring
      rw [hc, hx, hz]
      linear_combination Real.sin δ * h1
    rw [hkey, Real.arcsin_sin (by linarith) (by linarith)]
  · -- hour-angle recovery
    have hxz : x * Real.sin φ + z * Real.cos φ = Real.cos H * Real.cos δ := by
      rw [hx, hz]
      linear_combination Real.cos H * Real.cos δ * h1
    have hx2 : Real.cos (atan2 (Real.sin H)
          (Real.cos H * Real.sin φ - Real.tan δ * Real.cos φ)) * Real.sin φ +
        Real.tan (Real.arcsin z) * Real.cos φ =
        Real.cos H * Real.cos δ / Real.sqrt (x ^ 2 + y ^ 2) := by
      rw [hcosaz, Real.tan_eq_sin_div_cos, hsinalt, hcosalt,
        div_mul_eq_mul_div, div_mul_eq_mul_div, div_add_div_same, hxz]
    have hy2 : Real.sin (atan2 (Real.sin H)
        (Real.cos H * Real.sin φ - Real.tan δ * Real.cos φ)) =
        Real.sin H * Real.cos δ / Real.sqrt (x ^ 2 + y ^ 2) := by
      rw [hsinaz, hy]
    rw [hx2, hy2]
    unfold atan2
    have hform : ((Real.cos H * Real.cos δ / Real.sqrt (x ^ 2 + y ^ 2) : ℝ) : ℂ) +
        ((Real.sin H * Real.cos δ / Real.sqrt (x ^ 2 + y ^ 2) : ℝ) : ℂ) * Complex.I =
        ((Real.cos δ / Real.sqrt (x ^ 2 + y ^ 2) : ℝ) : ℂ) *
          (((Real.cos H : ℝ) : ℂ) + ((Real.sin H : ℝ) : ℂ) * Complex.I) := by
      push_cast
      ring
    rw [hform, Complex.arg_real_mul _ (div_pos hcosδ hsqrt_pos)]
    rw [Complex.ofReal_cos, Complex.ofReal_sin]
    exact Complex.arg_cos_add_sin_mul_I_eq_toIocMod H

lemma equatorial_horizontal_round_trip_general (eqc : EquatorialCoords)
    (geo : GeoCoords) (gmt : AstroTime)
    (hdl : -(π / 2) < eqc.declination) (hdr : eqc.declination < π / 2)
    (hH : Real.sin (local_mean_hour_angle gmt geo eqc) ≠ 0)
    (ha0 : 0 < eqc.right_acension) (ha2 : eqc.right_acension < 2 * π) :
    trans_horizontal_to_equatorial
      (trans_equatorial_to_horizontal eqc geo gmt false) false =
      { declination := eqc.declination, right_acension := eqc.right_acension,
        epoch := gmt } := by
  obtain ⟨core1, core2⟩ := round_trip_core geo.latitude eqc.declination
    (local_mean_hour_angle gmt geo eqc) hdl hdr hH
  have hunfold : trans_horizontal_to_equatorial
      (trans_equatorial_to_horizontal eqc geo gmt false) false =
      { declination := Real.arcsin (Real.sin geo.latitude *
          Real.sin (Real.arcsin (Real.sin geo.latitude * Real.sin eqc.declination +
            Real.cos geo.latitude * Real.cos eqc.declination *
              Real.cos (local_mean_hour_angle gmt geo eqc))) -
          Real.cos geo.latitude *
            Real.cos (Real.arcsin (Real.sin geo.latitude * Real.sin eqc.declination +
              Real.cos geo.latitude * Real.cos eqc.declination *
                Real.cos (local_mean_hour_angle gmt geo eqc))) *
            Real.cos (atan2 (Real.sin (local_mean_hour_angle gmt geo eqc))
              (Real.cos (local_mean_hour_angle gmt geo eqc) * Real.sin geo.latitude -
                Real.tan eqc.declination * Real.cos geo.latitude))),
        right_acension := RadianAngle.map_to_time_range
          (right_acension_from_mean_hour_angle
            (atan2 (Real.sin (atan2 (Real.sin (local_mean_hour_angle gmt geo eqc))
                (Real.cos (local_mean_hour_angle gmt geo eqc) * Real.sin geo.latitude -
                  Real.tan eqc.declination * Real.cos geo.latitude)))
              (Real.cos (atan2 (Real.sin (local_mean_hour_angle gmt geo eqc))
                  (Real.cos (local_mean_hour_angle gmt geo eqc) * Real.sin geo.latitude -
                    Real.tan eqc.declination * Real.cos geo.latitude)) *
                  Real.sin geo.latitude +
                Real.tan (Real.arcsin (Real.sin geo.latitude * Real.sin eqc.declination +
                  Real.cos geo.latitude * Real.cos eqc.declination *
                    Real.cos (local_mean_hour_angle gmt geo eqc))) *
                  Real.cos geo.latitude))
            geo gmt),
        epoch := gmt } := rfl
  rw [hunfold, core1, core2]
  have hsub := self_sub_toIocMod Real.two_pi_pos (-π) (local_mean_hour_angle gmt geo eqc)
  rw [zsmul_eq_mul] at hsub
  have hHeq : local_mean_hour_angle gmt geo eqc =
      local_mean_sidereal_time gmt geo - eqc.right_acension := rfl
  rw [hHeq] at hsub
  have hra : right_acension_from_mean_hour_angle
      (toIocMod Real.two_pi_pos (-π) (local_mean_hour_angle gmt geo eqc)) geo gmt =
      eqc.right_acension + (toIocDiv Real.two_pi_pos (-π)
        (local_mean_hour_angle gmt geo eqc) : ℝ) * (2 * π) := by
    unfold right_acension_from_mean_hour_angle
    rw [hHeq]
    linarith [hsub]
  rw [hra, map_to_time_range_add_int eqc.right_acension _ ha0 ha2]

section RegressionNumeric

attribute [local semireducible] Rat.mul Rat.inv Rat.add Rat.sub Rat.ofScientific

lemma c9_hour_angle_not_whole : (c9_hour_angle_degrees / 180).den ≠ 1 := by decide

end RegressionNumeric

/-- **C9**: for the regression observer of the in-repo test
(latitude 38°55′17″ N, longitude 77°03′56″ W) at
1987-04-10 19:21:00 UT, transforming the equatorial position
RA 23h09m16.8746s, dec −6°43′11.61″ to horizontal coordinates with
`trans_equatorial_to_horizontal` and back with
`trans_horizontal_to_equatorial` reproduces the original right
ascension and declination exactly (the right ascension is already in
the `[0, 2π)` time range, so the final `map_to_time_range` returns it
unchanged), with the epoch set to the observation time. -/
theorem equatorial_horizontal_regression_round_trip :
    trans_horizontal_to_equatorial
      (trans_equatorial_to_horizontal
        { declination := ((-(6 + 43/60 + 1161/100/3600) : ℚ) : ℝ) * π / 180,
          right_acension := (((23 + 9/60 + 168746/10000/3600) * 15 : ℚ) : ℝ) * π / 180,
          epoch := ⟨gregorian_jd 1987 4 10 19 21 0, TimeType.UT⟩ }
        (GeoCoords.new_degrees (((38 + 55/60 + 17/3600) : ℚ) : ℝ)
          ((-(77 + 3/60 + 56/3600) : ℚ) : ℝ))
        ⟨gregorian_jd 1987 4 10 19 21 0, TimeType.UT⟩ false) false =
      { declination := ((-(6 + 43/60 + 1161/100/3600) : ℚ) : ℝ) * π / 180,
        right_acension := (((23 + 9/60 + 168746/10000/3600) * 15 : ℚ) : ℝ) * π / 180,
        epoch := ⟨gregorian_jd 1987 4 10 19 21 0, TimeType.UT⟩ } := by
  have hπ := Real.pi_pos
  apply equatorial_horizontal_round_trip_general
  · show -(π / 2) < ((-(6 + 43/60 + 1161/100/3600) : ℚ) : ℝ) * π / 180
    have hq : (-90 : ℝ) < ((-(6 + 43/60 + 1161/100/3600) : ℚ) : ℝ) := by
      norm_num
    nlinarith
  · show ((-(6 + 43/60 + 1161/100/3600) : ℚ) : ℝ) * π / 180 < π / 2
    have hq : ((-(6 + 43/60 + 1161/100/3600) : ℚ) : ℝ) < 90 := by
      norm_num
    nlinarith
  · show Real.sin (local_mean_hour_angle _ _ _) ≠ 0
    have hform : local_mean_hour_angle
        ⟨gregorian_jd 1987 4 10 19 21 0, TimeType.UT⟩
        (GeoCoords.new_degrees (((38 + 55/60 + 17/3600) : ℚ) : ℝ)
          ((-(77 + 3/60 + 56/3600) : ℚ) : ℝ))
        { declination := ((-(6 + 43/60 + 1161/100/3600) : ℚ) : ℝ) * π / 180,
          right_acension := (((23 + 9/60 + 168746/10000/3600) * 15 : ℚ) : ℝ) * π / 180,
          epoch := ⟨gregorian_jd 1987 4 10 19 21 0, TimeType.UT⟩ } =
        ((c9_hour_angle_degrees : ℚ) : ℝ) * π / 180 := by
      unfold local_mean_hour_angle local_mean_sidereal_time mean_sidereal_greenwich
        GeoCoords.new_degrees c9_hour_angle_degrees
      dsimp only
      push_cast
      ring
    rw [hform]
    intro h0
    rcases Real.sin_eq_zero_iff.1 h0 with ⟨n, hn⟩
    have hQ : ((c9_hour_angle_degrees : ℚ) : ℝ) = 180 * (n : ℝ) := by
      have hprod : ((c9_hour_angle_degrees : ℚ) : ℝ) * π = (180 * (n : ℝ)) * π := by
        nlinarith [hn]
      exact mul_right_cancel₀ Real.pi_ne_zero hprod
    have hQrat : (c9_hour_angle_degrees / 180 : ℚ) = ((n : ℤ) : ℚ) := by
      have h180 : ((c9_hour_angle_degrees / 180 : ℚ) : ℝ) = ((n : ℤ) : ℚ) := by
        push_cast
        rw [div_eq_iff (by norm_num : (180 : ℝ) ≠ 0)]
        rw [hQ]
        ring
      exact_mod_cast h180
    have hden : (c9_hour_angle_degrees / 180 : ℚ).den = 1 := by
      rw [hQrat]
      exact Rat.den_intCast n
    exact c9_hour_angle_not_whole hden
  · show (0 : ℝ) < (((23 + 9/60 + 168746/10000/3600) * 15 : ℚ) : ℝ) * π / 180
    have hq : (0 : ℝ) < (((23 + 9/60 + 168746/10000/3600) * 15 : ℚ) : ℝ) := by
      norm_num
    positivity
  · show (((23 + 9/60 + 168746/10000/3600) * 15 : ℚ) : ℝ) * π / 180 < 2 * π
    have hq : (((23 + 9/60 + 168746/10000/3600) * 15 : ℚ) : ℝ) < 360 := by
      norm_num
    nlinarith

end AstroCalc
